import Mathlib

/-!
Verification of the mvfst QUIC transmission engine (write path).

This file shallowly embeds the send-path logic of the repository:
the write-reason classifier `shouldWriteData`, the congestion budget
`congestionControlWritableBytes`, the outstanding-packet bookkeeping of
`updateConnection`, the implicit handshake-key-discard acknowledgement
`implicitAckCryptoStream`, the batching writer `IOBufQuicBatch`
(`write` / `flush` / `flushInternal`), the transmission loop
`writeConnectionDataToSocket`, and the two packet build strategies
(`continuousMemoryBuildScheduleEncrypt` and
`iobufChainBasedBuildScheduleEncrypt`).  External collaborators (AEAD,
frame scheduler internals, sockets, wall-clock time) appear as oracle
inputs; machine integers are Nat with explicit reduction modulo 2 ^ 64
where C++ uint64 overflow matters.
-/

namespace Mvfst

/-- Packet number spaces (QuicConstants): Initial, Handshake, AppData. -/
inductive PacketNumberSpace
  | initial
  | handshake
  | appData
  deriving DecidableEq

/-- Encryption levels (codec Types): Initial, EarlyData, Handshake, AppData. -/
inductive EncryptionLevel
  | initial
  | earlyData
  | handshake
  | appData
  deriving DecidableEq

/-- Write-data reasons returned by the classifier in QuicTransportFunctions. -/
inductive WriteDataReason
  | noWrite
  | probes
  | ack
  | cryptoStream
  | reset
  | streamWindowUpdate
  | connWindowUpdate
  | blocked
  | stream
  | simple
  | pathChallenge
  | ping
  deriving DecidableEq

/-- Per-packet-number-space ack bookkeeping of the connection.  The
predicate hasAcksToSchedule over the ack block set lives in
QuicStateFunctions (outside the given sources); its Boolean value on the
current state is carried as a field, as is needsToSendAckImmediately. -/
structure AckStateM where
  hasAcksToSchedule : Bool
  needsToSendAckImmediately : Bool
  deriving DecidableEq

/-- Write-side buffers of one crypto stream, as (offset, length) chunks;
only emptiness matters for the classifier. -/
structure CryptoStreamBuffers where
  writeBuffer : List (Nat × Nat)
  lossBuffer : List (Nat × Nat)
  deriving DecidableEq

/-- The three crypto pseudo-streams of conn.cryptoState. -/
structure CryptoStateM where
  initialStream : CryptoStreamBuffers
  handshakeStream : CryptoStreamBuffers
  oneRttStream : CryptoStreamBuffers
  deriving DecidableEq

/-- conn.pendingEvents: work requested since the last successful write. -/
structure PendingEventsM where
  numProbePackets : Nat
  resets : List Nat
  connWindowUpdate : Bool
  frames : List Nat
  pathChallenge : Option Nat
  sendPing : Bool
  deriving DecidableEq

/-- The stream-manager queries used by the classifier, as Boolean state. -/
structure StreamManagerM where
  hasWindowUpdates : Bool
  hasBlocked : Bool
  hasWritable : Bool
  deriving DecidableEq

/-- The slice of QuicConnectionStateBase read by `shouldWriteData` and
`congestionControlWritableBytes`.  Cipher pointers are presence Booleans;
the congestion controller and the path-validation limiter are represented
by the uint64 values their queries return (`congestionControllerWritable`
is none when no controller is installed);
`sendConnFlowControlBytesWire` carries the value of the flow-control query
of the same name (QuicFlowController, outside the given sources). -/
structure QuicConnectionStateBase where
  initialWriteCipher : Bool
  handshakeWriteCipher : Bool
  oneRttWriteCipher : Bool
  zeroRttWriteCipher : Bool
  initialAckState : AckStateM
  handshakeAckState : AckStateM
  appDataAckState : AckStateM
  cryptoState : CryptoStateM
  pendingEvents : PendingEventsM
  streamManager : StreamManagerM
  outstandingPathValidation : Bool
  pathValidationCredit : Nat
  writableBytesLimit : Option Nat
  totalBytesSent : Nat
  congestionControllerWritable : Option Nat
  udpSendPacketLen : Nat
  sendConnFlowControlBytesWire : Nat
  deriving DecidableEq

/-- toWriteInitialAcks (QuicTransportFunctions anonymous namespace). -/
def toWriteInitialAcks (conn : QuicConnectionStateBase) : Bool :=
  conn.initialWriteCipher && conn.initialAckState.hasAcksToSchedule &&
    conn.initialAckState.needsToSendAckImmediately

/-- toWriteHandshakeAcks. -/
def toWriteHandshakeAcks (conn : QuicConnectionStateBase) : Bool :=
  conn.handshakeWriteCipher && conn.handshakeAckState.hasAcksToSchedule &&
    conn.handshakeAckState.needsToSendAckImmediately

/-- toWriteAppDataAcks. -/
def toWriteAppDataAcks (conn : QuicConnectionStateBase) : Bool :=
  conn.oneRttWriteCipher && conn.appDataAckState.hasAcksToSchedule &&
    conn.appDataAckState.needsToSendAckImmediately

/-- hasAckDataToWrite. -/
def hasAckDataToWrite (conn : QuicConnectionStateBase) : Bool :=
  toWriteInitialAcks conn || toWriteHandshakeAcks conn || toWriteAppDataAcks conn

/-- cryptoHasWritableData: per level, the write cipher is installed and the
level's crypto stream has bytes in its write buffer or loss buffer. -/
def cryptoHasWritableData (conn : QuicConnectionStateBase) : Bool :=
  (conn.initialWriteCipher &&
    (!conn.cryptoState.initialStream.writeBuffer.isEmpty ||
     !conn.cryptoState.initialStream.lossBuffer.isEmpty)) ||
  (conn.handshakeWriteCipher &&
    (!conn.cryptoState.handshakeStream.writeBuffer.isEmpty ||
     !conn.cryptoState.handshakeStream.lossBuffer.isEmpty)) ||
  (conn.oneRttWriteCipher &&
    (!conn.cryptoState.oneRttStream.writeBuffer.isEmpty ||
     !conn.cryptoState.oneRttStream.lossBuffer.isEmpty))

/-- The largest uint64 value, std numeric limits max. -/
def U64MAX : Nat := 2 ^ 64 - 1

/-- The uint64 round-up of congestionControlWritableBytes:
(writableBytes + udpSendPacketLen - 1) / udpSendPacketLen * udpSendPacketLen,
with the addition wrapping modulo 2 ^ 64 as C++ uint64 arithmetic does. -/
def roundUpToPacketLen (w len : Nat) : Nat :=
  (w + len - 1) % 2 ^ 64 / len * len

/-- The min against the congestion controller's writable bytes taken by
congestionControlWritableBytes when a controller is installed. -/
def ccMin (conn : QuicConnectionStateBase) (w : Nat) : Nat :=
  match conn.congestionControllerWritable with
  | some c => min w c
  | none => w

/-- The pre-rounding byte budget of congestionControlWritableBytes:
path-validation credit while a path challenge is in flight, otherwise the
remaining writable-bytes limit, otherwise unlimited, in each case reduced
by the congestion controller; none encodes the early return 0 taken when
the writable-bytes limit is already spent. -/
def ccwbBudget (conn : QuicConnectionStateBase) : Option Nat :=
  if conn.pendingEvents.pathChallenge.isSome || conn.outstandingPathValidation then
    some (ccMin conn conn.pathValidationCredit)
  else
    match conn.writableBytesLimit with
    | some limit =>
        if limit ≤ conn.totalBytesSent then none
        else some (ccMin conn (limit - conn.totalBytesSent))
    | none => some (ccMin conn U64MAX)

/-- The tail of congestionControlWritableBytes: the exhausted-limit early
return yields 0; a finite budget is rounded up to a multiple of
udpSendPacketLen; the unlimited marker passes through unrounded. -/
def ccwbFromBudget (conn : QuicConnectionStateBase) : Option Nat → Nat
  | none => 0
  | some w => if w = U64MAX then w else roundUpToPacketLen w conn.udpSendPacketLen

/-- congestionControlWritableBytes (QuicTransportFunctions): the budget, left
unchanged when it is the unlimited marker, otherwise rounded up to a
multiple of udpSendPacketLen in uint64 arithmetic. -/
def congestionControlWritableBytes (conn : QuicConnectionStateBase) : Nat :=
  ccwbFromBudget conn (ccwbBudget conn)

/-- hasNonAckDataToWrite: the tail of the classifier's priority chain. -/
def hasNonAckDataToWrite (conn : QuicConnectionStateBase) : WriteDataReason :=
  if cryptoHasWritableData conn then .cryptoStream
  else if !conn.oneRttWriteCipher && !conn.zeroRttWriteCipher then .noWrite
  else if !conn.pendingEvents.resets.isEmpty then .reset
  else if conn.streamManager.hasWindowUpdates then .streamWindowUpdate
  else if conn.pendingEvents.connWindowUpdate then .connWindowUpdate
  else if conn.streamManager.hasBlocked then .blocked
  else if conn.sendConnFlowControlBytesWire != 0 && conn.streamManager.hasWritable then .stream
  else if !conn.pendingEvents.frames.isEmpty then .simple
  else if conn.pendingEvents.pathChallenge.isSome then .pathChallenge
  else if conn.pendingEvents.sendPing then .ping
  else .noWrite

/-- shouldWriteData.  The second component records whether the
onCwndBlocked stats event fired (the cwnd-blocked no-write branch). -/
def shouldWriteData (conn : QuicConnectionStateBase) : WriteDataReason × Bool :=
  if conn.pendingEvents.numProbePackets != 0 then (.probes, false)
  else if hasAckDataToWrite conn then (.ack, false)
  else if congestionControlWritableBytes conn = 0 then (.noWrite, true)
  else (hasNonAckDataToWrite conn, false)

/-- The specification's flat classifier: the thirteen clauses of spec
section 4.1 written as one first-match-wins chain, in the spec's order:
probes; immediate acks in a space with its write cipher; cwnd-blocked
no-write with a stats event; pending crypto bytes; no 0-RTT or 1-RTT
cipher; resets; stream window updates; connection window update; blocked
streams; stream data gated on the connection-level send window; simple
frames; path challenge; ping; otherwise no write. -/
def shouldWriteDataSpec (conn : QuicConnectionStateBase) : WriteDataReason × Bool :=
  if conn.pendingEvents.numProbePackets != 0 then (.probes, false)
  else if (conn.initialWriteCipher && conn.initialAckState.hasAcksToSchedule &&
            conn.initialAckState.needsToSendAckImmediately) ||
          (conn.handshakeWriteCipher && conn.handshakeAckState.hasAcksToSchedule &&
            conn.handshakeAckState.needsToSendAckImmediately) ||
          (conn.oneRttWriteCipher && conn.appDataAckState.hasAcksToSchedule &&
            conn.appDataAckState.needsToSendAckImmediately) then (.ack, false)
  else if congestionControlWritableBytes conn = 0 then (.noWrite, true)
  else if (conn.initialWriteCipher &&
            (!conn.cryptoState.initialStream.writeBuffer.isEmpty ||
             !conn.cryptoState.initialStream.lossBuffer.isEmpty)) ||
          (conn.handshakeWriteCipher &&
            (!conn.cryptoState.handshakeStream.writeBuffer.isEmpty ||
             !conn.cryptoState.handshakeStream.lossBuffer.isEmpty)) ||
          (conn.oneRttWriteCipher &&
            (!conn.cryptoState.oneRttStream.writeBuffer.isEmpty ||
             !conn.cryptoState.oneRttStream.lossBuffer.isEmpty)) then (.cryptoStream, false)
  else if !conn.oneRttWriteCipher && !conn.zeroRttWriteCipher then (.noWrite, false)
  else if !conn.pendingEvents.resets.isEmpty then (.reset, false)
  else if conn.streamManager.hasWindowUpdates then (.streamWindowUpdate, false)
  else if conn.pendingEvents.connWindowUpdate then (.connWindowUpdate, false)
  else if conn.streamManager.hasBlocked then (.blocked, false)
  else if conn.sendConnFlowControlBytesWire != 0 && conn.streamManager.hasWritable then (.stream, false)
  else if !conn.pendingEvents.frames.isEmpty then (.simple, false)
  else if conn.pendingEvents.pathChallenge.isSome then (.pathChallenge, false)
  else if conn.pendingEvents.sendPing then (.ping, false)
  else (.noWrite, false)

/-- The closed sum of write-frame variants dispatched by updateConnection's
switch; otherWrittenFrame stands for the switch's default arm. -/
inductive QuicWriteFrame
  | writeStreamFrame (streamId offset len : Nat) (finFlag : Bool)
  | writeCryptoFrame (offset len : Nat)
  | writeAckFrame (largestAcked : Nat)
  | rstStreamFrame (streamId : Nat)
  | maxDataFrame (maximumData : Nat)
  | dataBlockedFrame
  | maxStreamDataFrame (streamId maximumData : Nat)
  | streamDataBlockedFrame (streamId : Nat)
  | pingFrame
  | quicSimpleFrame (frameId : Nat)
  | paddingFrame
  | otherWrittenFrame
  deriving DecidableEq

/-- True for the frame variants whose updateConnection arm leaves both
retransmittable and isPing untouched: ack and padding frames. -/
def frameIsAckOrPadding : QuicWriteFrame → Bool
  | .writeAckFrame _ => true
  | .paddingFrame => true
  | _ => false

/-- One step of updateConnection's per-frame switch restricted to the
retransmittable / isPing accumulators: ack and padding frames change
nothing, a ping frame sets isPing, every other arm sets retransmittable. -/
def updateFrameFlags (acc : Bool × Bool) (f : QuicWriteFrame) : Bool × Bool :=
  match f with
  | .writeAckFrame _ => acc
  | .paddingFrame => acc
  | .pingFrame => (acc.1, true)
  | _ => (true, acc.2)

/-- The (retransmittable, isPing) pair updateConnection accumulates over a
sent packet's frames, both starting false. -/
def packetRetransmittableAndPing (frames : List QuicWriteFrame) : Bool × Bool :=
  frames.foldl updateFrameFlags (false, false)

/-- One entry of conn.outstandings.packets, with the fields the tracked
claims read: the packet-number space, the sequence number, and the frames. -/
structure OutstandingPacketM where
  pnSpace : PacketNumberSpace
  packetNum : Nat
  frames : List QuicWriteFrame
  deriving DecidableEq

/-- updateConnection's emplace position: the reverse find_if locates, from
the back, the first outstanding packet with a sequence number below the new
packet's, and the new record is inserted just after it (at the front when
no such packet exists).  Scanning keeps the current element whenever a
qualifying element still exists deeper toward the back. -/
def insertOutstanding (p : OutstandingPacketM) : List OutstandingPacketM → List OutstandingPacketM
  | [] => [p]
  | q :: rest =>
      if rest.any (fun r => r.packetNum < p.packetNum) then q :: insertOutstanding p rest
      else if q.packetNum < p.packetNum then q :: p :: rest
      else p :: q :: rest

/-- The outstanding-packet effect of updateConnection: after the per-frame
switch, a record is inserted exactly unless the packet is neither
retransmittable nor a ping. -/
def updateConnectionOutstandings (outstandings : List OutstandingPacketM)
    (packet : OutstandingPacketM) : List OutstandingPacketM :=
  let rp := packetRetransmittableAndPing packet.frames
  if !rp.1 && !rp.2 then outstandings
  else insertOutstanding packet outstandings

/-- The container order maintained globally: ascending packet numbers. -/
def outstandingsSortedByPacketNum (l : List OutstandingPacketM) : Prop :=
  l.Pairwise (fun a b => a.packetNum ≤ b.packetNum)

/-- The per-space order of the claim: within one packet-number space the
packet numbers are strictly ascending. -/
def outstandingsStrictPerSpace (l : List OutstandingPacketM) : Prop :=
  l.Pairwise (fun a b => a.pnSpace = b.pnSpace → a.packetNum < b.packetNum)

instance (l : List OutstandingPacketM) : Decidable (outstandingsSortedByPacketNum l) :=
  inferInstanceAs (Decidable (l.Pairwise _))

instance (l : List OutstandingPacketM) : Decidable (outstandingsStrictPerSpace l) :=
  inferInstanceAs (Decidable (l.Pairwise _))

/-- State of one crypto pseudo-stream: the three disjoint byte-range
buffers, as (offset, length) chunks. -/
structure CryptoStreamState where
  writeBuffer : List (Nat × Nat)
  retransmissionBuffer : List (Nat × Nat)
  lossBuffer : List (Nat × Nat)
  deriving DecidableEq

/-- The connection slice implicitAckCryptoStream operates on: the
outstanding packets and the Initial / Handshake crypto streams. -/
structure ConnForImplicitAck where
  outstandings : List OutstandingPacketM
  initialCryptoStream : CryptoStreamState
  handshakeCryptoStream : CryptoStreamState
  deriving DecidableEq

/-- getCryptoStream restricted to the two discardable levels. -/
def getCryptoStream (conn : ConnForImplicitAck) (level : EncryptionLevel) : CryptoStreamState :=
  match level with
  | .handshake => conn.handshakeCryptoStream
  | _ => conn.initialCryptoStream

/-- Replaces the crypto stream getCryptoStream selects. -/
def setCryptoStream (conn : ConnForImplicitAck) (level : EncryptionLevel)
    (s : CryptoStreamState) : ConnForImplicitAck :=
  match level with
  | .handshake => { conn with handshakeCryptoStream := s }
  | _ => { conn with initialCryptoStream := s }

/-- The packet-number space implicitAckCryptoStream acks: Handshake for the
handshake level, Initial otherwise. -/
def implicitAckPnSpace (level : EncryptionLevel) : PacketNumberSpace :=
  if level = EncryptionLevel.handshake then .handshake else .initial

/-- Whether one outstanding packet is acknowledged by the single implicit
ack block [blockStart, blockEnd] of the target space. -/
def coveredByImplicitAck (pnSpace : PacketNumberSpace) (blockStart blockEnd : Nat)
    (op : OutstandingPacketM) : Bool :=
  decide (op.pnSpace = pnSpace) && decide (blockStart ≤ op.packetNum) &&
    decide (op.packetNum ≤ blockEnd)

/-- Modelled from the spec: processCryptoStreamAck (QuicStreamFunctions is
not among the provided sources) moves the acknowledged range out of the
stream's retransmission buffer; transitions are exact by offset, so the
chunk whose offset and length match is removed. -/
def processCryptoStreamAck (s : CryptoStreamState) (offset len : Nat) : CryptoStreamState :=
  { s with retransmissionBuffer :=
      s.retransmissionBuffer.filter (fun e => !(decide (e.1 = offset) && decide (e.2 = len))) }

/-- Modelled from the spec: the ack visitor on one acknowledged frame —
a crypto frame is acknowledged through processCryptoStreamAck on the
discarded level's stream; the other frame kinds need no crypto-stream
bookkeeping here. -/
def ackVisitorFrame (s : CryptoStreamState) (f : QuicWriteFrame) : CryptoStreamState :=
  match f with
  | .writeCryptoFrame offset len => processCryptoStreamAck s offset len
  | _ => s

/-- The ack visitor folded over one acknowledged packet's frames. -/
def ackVisitorPacket (s : CryptoStreamState) (op : OutstandingPacketM) : CryptoStreamState :=
  op.frames.foldl ackVisitorFrame s

/-- Result of one processAckFrame run: the updated connection, how many
outstanding packets the frame acknowledged, and how many it reported lost. -/
structure AckProcessResult where
  conn : ConnForImplicitAck
  ackedCount : Nat
  lostCount : Nat
  deriving DecidableEq

/-- Modelled from the spec: processAckFrame (AckHandlers is not among the
provided sources) on the implicit ack: outstanding packets of the target
space covered by the ack block are acknowledged and removed, invoking the
ack visitor on each of their frames — for a crypto frame the visitor runs
processCryptoStreamAck on the level's stream; packets of the space at or
below the largest acked that no block covers are reported lost. -/
def processAckFrameImplicit (conn : ConnForImplicitAck) (pnSpace : PacketNumberSpace)
    (level : EncryptionLevel) (blockStart blockEnd : Nat) : AckProcessResult :=
  let acked := conn.outstandings.filter (coveredByImplicitAck pnSpace blockStart blockEnd)
  let remaining := conn.outstandings.filter
    (fun op => !coveredByImplicitAck pnSpace blockStart blockEnd op)
  let lost := remaining.filter
    (fun op => decide (op.pnSpace = pnSpace) && decide (op.packetNum ≤ blockEnd))
  let s := acked.foldl ackVisitorPacket (getCryptoStream conn level)
  { conn := setCryptoStream { conn with outstandings := remaining } level s,
    ackedCount := acked.length,
    lostCount := lost.length }

/-- Result of implicitAckCryptoStream: the updated connection, the single
synthesized ack block if one was built, and the ack/loss counts the
processing reported. -/
structure ImplicitAckOutcome where
  conn : ConnForImplicitAck
  synthesizedBlock : Option (Nat × Nat)
  ackedCount : Nat
  lostCount : Nat
  deriving DecidableEq

/-- Fold of Nat.min used for the front of the synthesized ack block. -/
def listMinFrom (n : Nat) (l : List Nat) : Nat := l.foldl Nat.min n

/-- Fold of Nat.max used for the back of the synthesized ack block. -/
def listMaxFrom (n : Nat) (l : List Nat) : Nat := l.foldl Nat.max n

/-- implicitAckCryptoStream: collect the packet numbers still outstanding
in the discarded level's space; if there are none, return unchanged;
otherwise synthesize one ack block spanning their full range, run it
through the ack-processing path, then clear the level's loss buffer.
processAckFrame and the crypto ack visitor are modelled from the spec as
noted on their definitions. -/
def implicitAckCryptoStream (conn : ConnForImplicitAck) (level : EncryptionLevel) :
    ImplicitAckOutcome :=
  let pnSpace := implicitAckPnSpace level
  let nums := (conn.outstandings.filter (fun op => decide (op.pnSpace = pnSpace))).map
    (fun op => op.packetNum)
  match nums with
  | [] => { conn := conn, synthesizedBlock := none, ackedCount := 0, lostCount := 0 }
  | n :: rest =>
      let blockStart := listMinFrom n rest
      let blockEnd := listMaxFrom n rest
      let r := processAckFrameImplicit conn pnSpace level blockStart blockEnd
      let s := getCryptoStream r.conn level
      let s := { s with lossBuffer := [] }
      { conn := setCryptoStream r.conn level s,
        synthesizedBlock := some (blockStart, blockEnd),
        ackedCount := r.ackedCount,
        lostCount := r.lostCount }

/-- Linux errno values named in IOBufQuicBatch::isRetriableError. -/
def EAGAIN : Nat := 11

/-- EWOULDBLOCK aliases EAGAIN on Linux. -/
def EWOULDBLOCK : Nat := 11

/-- No buffer space available. -/
def ENOBUFS : Nat := 105

/-- Message too long. -/
def EMSGSIZE : Nat := 90

/-- IOBufQuicBatch::isRetriableError. -/
def isRetriableError (err : Nat) : Bool :=
  err == EAGAIN || err == EWOULDBLOCK || err == ENOBUFS || err == EMSGSIZE

/-- The happy-eyeballs dual-socket flags flushInternal reads and writes;
connAttemptDelayScheduled models connAttemptDelayTimeout being present and
scheduled. -/
structure HappyEyeballsStateM where
  shouldWriteToFirstSocket : Bool
  shouldWriteToSecondSocket : Bool
  connAttemptDelayScheduled : Bool
  deriving DecidableEq

/-- Outcome of one batchWriter->write syscall on a socket: the consumed
byte count (negative on failure) and the errno the failure sets. -/
structure SocketWriteOutcome where
  consumed : Int
  errnoValue : Nat
  deriving DecidableEq

/-- The mutable state flushInternal threads: the dual-socket flags, the
pause-read side effects, and the thread-global errno. -/
structure FlushSideState where
  he : HappyEyeballsStateM
  firstSocketReadPaused : Bool
  secondSocketReadPaused : Bool
  errno : Nat
  deriving DecidableEq

/-- How flushInternal ends: a normal return carrying the written flag, or
exactly one thrown fatal signal — QuicInternalException CONNECTION_ABANDONED
or QuicTransportException INTERNAL_ERROR. -/
inductive FlushSignal
  | ok (written : Bool)
  | quicInternalExceptionConnectionAbandoned
  | quicTransportExceptionInternalError
  deriving DecidableEq

/-- First-socket write attempt of flushInternal: on failure errno is set;
the socket stays eligible when the write consumed bytes or the errno is
retriable, and is otherwise marked ineligible with its read side paused. -/
def flushFirstSocket (firstWrite : SocketWriteOutcome) (s : FlushSideState) : FlushSideState :=
  if s.he.shouldWriteToFirstSocket then
    let errno1 := if firstWrite.consumed < 0 then firstWrite.errnoValue else s.errno
    let keepFirst := decide (0 ≤ firstWrite.consumed) || isRetriableError errno1
    { s with errno := errno1,
             he := { s.he with shouldWriteToFirstSocket := keepFirst },
             firstSocketReadPaused := s.firstSocketReadPaused || !keepFirst }
  else s

/-- The racing fallback: when nothing has been written and the delayed
second-socket connection attempt is still scheduled, cancel the delay and
start the second socket immediately.  happyEyeballsStartSecondSocket is
not among the provided sources; modelled from the spec, which says the
transition makes the second socket usable at once. -/
def flushStartSecondIfDelayPending (written1 : Bool) (s : FlushSideState) : FlushSideState :=
  if !written1 && s.he.connAttemptDelayScheduled then
    { s with he := { s.he with connAttemptDelayScheduled := false,
                               shouldWriteToSecondSocket := true } }
  else s

/-- Second-socket write attempt, under the same retriable / fatal
classification as the first. -/
def flushSecondSocket (secondWrite : SocketWriteOutcome) (s : FlushSideState) : FlushSideState :=
  if s.he.shouldWriteToSecondSocket then
    let errno2 := if secondWrite.consumed < 0 then secondWrite.errnoValue else s.errno
    let keepSecond := decide (0 ≤ secondWrite.consumed) || isRetriableError errno2
    { s with errno := errno2,
             he := { s.he with shouldWriteToSecondSocket := keepSecond },
             secondSocketReadPaused := s.secondSocketReadPaused || !keepSecond }
  else s

/-- Tail of flushInternal: with both sockets ineligible the connection
cannot transmit, and the current errno selects the thrown signal;
otherwise return whether either socket accepted the batch. -/
def flushFinish (netUnreachable : Nat → Bool) (written : Bool) (s : FlushSideState) :
    FlushSignal × FlushSideState :=
  if !s.he.shouldWriteToFirstSocket && !s.he.shouldWriteToSecondSocket then
    if netUnreachable s.errno then (.quicInternalExceptionConnectionAbandoned, s)
    else (.quicTransportExceptionInternalError, s)
  else (.ok written, s)

/-- IOBufQuicBatch::flushInternal.  The unreachability classifier
isNetworkUnreachable (SocketUtil, outside the given sources) is passed as
an abstract predicate on errno; the onUDPSocketWriteError stats callback
is telemetry and not modelled. -/
def flushInternal (netUnreachable : Nat → Bool) (batchEmpty : Bool)
    (firstWrite secondWrite : SocketWriteOutcome) (s0 : FlushSideState) :
    FlushSignal × FlushSideState :=
  if batchEmpty then (.ok true, s0)
  else
    let s1 := flushFirstSocket firstWrite s0
    let written1 := s0.he.shouldWriteToFirstSocket && decide (0 ≤ firstWrite.consumed)
    let s2 := flushStartSecondIfDelayPending written1 s1
    let s3 := flushSecondSocket secondWrite s2
    let written := written1 ||
      (s2.he.shouldWriteToSecondSocket && decide (0 ≤ secondWrite.consumed))
    flushFinish netUnreachable written s3

/-- The two flush modes of IOBufQuicBatch::flush. -/
inductive FlushTypeM
  | flushTypeAllowThreadLocalDelay
  | flushTypeAlways
  deriving DecidableEq

/-- Batch-writer state the transmission loop sees: packets appended but
not yet flushed, and the pktSent counter the loop returns. -/
structure BatchState where
  pendingPackets : Nat
  pktSent : Nat
  deriving DecidableEq

/-- IOBufQuicBatch::flush at the batch level: the thread-local delay mode
defers (leaving the batch intact), otherwise flushInternal runs — its
socket outcome abstracted by the flushInternalOk oracle, succeeding
trivially on an empty batch — and reset always empties the batch
afterwards. -/
def batchFlush (threadLocal : Bool) (flushType : FlushTypeM) (flushInternalOk : Bool)
    (b : BatchState) : Bool × BatchState :=
  if threadLocal && flushType == .flushTypeAllowThreadLocalDelay then (true, b)
  else ((if b.pendingPackets == 0 then true else flushInternalOk),
        { b with pendingPackets := 0 })

/-- Oracle bits for one IOBufQuicBatch::write call: whether the batch
writer demands a flush before accepting the packet (that flush's failure
is ignored), whether append asks for an immediate flush, and what that
immediate flush's flushInternal reports. -/
structure WriteCallOutcome where
  needsFlush : Bool
  needsFlushResult : Bool
  appendRequestsFlush : Bool
  appendFlushResult : Bool
  deriving DecidableEq

/-- IOBufQuicBatch::write: count the packet in pktSent; flush first if the
batch writer needs room, ignoring that flush's result; append the packet;
if append requests it, flush immediately and return that flush's result,
otherwise report success with the packet left batched. -/
def ioBufBatchWrite (threadLocal : Bool) (o : WriteCallOutcome) (b : BatchState) :
    Bool × BatchState :=
  let b1 := { b with pktSent := b.pktSent + 1 }
  let b2 := if o.needsFlush then
      (batchFlush threadLocal .flushTypeAlways o.needsFlushResult b1).2
    else b1
  let b3 := { b2 with pendingPackets := b2.pendingPackets + 1 }
  if o.appendRequestsFlush then batchFlush threadLocal .flushTypeAlways o.appendFlushResult b3
  else (true, b3)

/-- Oracle for one transmission-loop iteration: whether the
build-schedule-encrypt step builds a packet, the result of the flush the
data path performs itself on build failure, and the write-call oracle used
on build success. -/
structure IterOutcome where
  buildSuccess : Bool
  buildFailFlushResult : Bool
  writeCall : WriteCallOutcome
  deriving DecidableEq

/-- The write result an iteration's successful build reports: false
exactly when the write call's immediate flush ran and failed. -/
def iterWriteSuccess (o : IterOutcome) : Bool :=
  if o.writeCall.appendRequestsFlush then o.writeCall.appendFlushResult else true

/-- What one data-path invocation reports to the loop. -/
inductive BuildStepOutcome
  | buildFailure
  | writeResult (writeSuccess : Bool)
  deriving DecidableEq

/-- One build-schedule-encrypt invocation as the loop sees it: on build
failure the data path has already flushed the batch (default flush mode,
so the thread-local delay may defer) and reports failure; on build success
it hands the packet to IOBufQuicBatch::write. -/
def dataPathStep (threadLocal : Bool) (o : IterOutcome) (b : BatchState) :
    BuildStepOutcome × BatchState :=
  if o.buildSuccess then
    let wb := ioBufBatchWrite threadLocal o.writeCall b
    (.writeResult wb.1, wb.2)
  else
    (.buildFailure, (batchFlush threadLocal .flushTypeAllowThreadLocalDelay
      o.buildFailFlushResult b).2)

/-- What writeConnectionDataToSocket's loop produced: the returned packet
count, the final batch state, the number of updateConnection calls, and
the iterations actually executed (in order). -/
structure WriteLoopResult where
  ret : Nat
  batch : BatchState
  updateConnectionCalls : Nat
  executed : List IterOutcome
  deriving DecidableEq

/-- The writeConnectionDataToSocket loop.  The scheduler is exhausted when
the outcome list is, matching scheduler.hasData(); timeOk k is the
wall-clock writeLoopTimeLimit predicate at the k-th iteration; the guard,
the early returns on build failure and on write failure (the latter after
updateConnection has run), and the final flush follow the source.  The
final flush's flushInternal outcome is irrelevant to the returned state,
so its oracle is fixed to true. -/
def writeConnectionDataLoop (threadLocal : Bool) (timeOk : Nat → Bool)
    (packetLimit batchSize : Nat) :
    List IterOutcome → BatchState → Nat → Nat → WriteLoopResult
  | [], b, updates, _ =>
      { ret := ((batchFlush threadLocal .flushTypeAllowThreadLocalDelay true b).2).pktSent,
        batch := (batchFlush threadLocal .flushTypeAllowThreadLocalDelay true b).2,
        updateConnectionCalls := updates,
        executed := [] }
  | o :: rest, b, updates, k =>
      if decide (b.pktSent < packetLimit) &&
          (decide (b.pktSent < batchSize) || timeOk k) then
        match dataPathStep threadLocal o b with
        | (.buildFailure, b1) =>
            { ret := b1.pktSent, batch := b1, updateConnectionCalls := updates,
              executed := [o] }
        | (.writeResult ws, b1) =>
            if ws then
              let r := writeConnectionDataLoop threadLocal timeOk packetLimit batchSize
                rest b1 (updates + 1) (k + 1)
              { r with executed := o :: r.executed }
            else
              { ret := b1.pktSent, batch := b1, updateConnectionCalls := updates + 1,
                executed := [o] }
      else
        { ret := ((batchFlush threadLocal .flushTypeAllowThreadLocalDelay true b).2).pktSent,
          batch := (batchFlush threadLocal .flushTypeAllowThreadLocalDelay true b).2,
          updateConnectionCalls := updates,
          executed := [] }

/-- The packet description a successful scheduling step yields: the frame
list, whether a body region exists, and the header / body lengths. -/
structure FramesAndBody where
  frames : List QuicWriteFrame
  hasBody : Bool
  headerLen : Nat
  bodyLen : Nat
  deriving DecidableEq

/-- Oracle for one scheduler.scheduleFramesForPacket call on the in-place
builder: the bytes it appended to the connection-owned buffer while
scheduling, and the packet it reported (none when nothing was built). -/
structure SchedulerOutcome where
  appendedBytes : List Nat
  packet : Option FramesAndBody
  deriving DecidableEq

/-- The D6D (MTU-discovery) probe test both data paths share: AppData
space and a packet number equal to the last recorded probe's. -/
def isD6DProbe (pnSpace : PacketNumberSpace) (d6dLastProbePacketNum : Option Nat)
    (packetNum : Nat) : Bool :=
  decide (pnSpace = PacketNumberSpace.appData) &&
    decide (d6dLastProbePacketNum = some packetNum)

/-- What one build-schedule-encrypt data path reports: build and write
flags, the encoded size, whether the oversize error log fired, the
connection-owned buffer afterwards (meaningful for the in-place strategy
only), the batch state, and whether the failure path invoked flush. -/
structure DataPathBuildResult where
  buildSuccess : Bool
  writeSuccess : Bool
  encodedSize : Nat
  loggedOversizeError : Bool
  connBuffer : List Nat
  batch : BatchState
  flushCalled : Bool
  deriving DecidableEq

/-- continuousMemoryBuildScheduleEncrypt.  The scheduler appends into the
connection-owned buffer; when it reports no packet, a packet with no
frames, or a packet with no body, the buffer is trimmed back to its
pre-attempt length, the batch is flushed (default mode), and build failure
is reported.  On success the encoded size is header + body + cipher
overhead, the oversize log fires unless the packet is a D6D probe, and the
packet goes to IOBufQuicBatch::write; the in-place ciphertext bytes are
abstracted, so the success-path buffer is left as scheduled. -/
def continuousMemoryBuildScheduleEncrypt (threadLocal : Bool)
    (pnSpace : PacketNumberSpace) (packetNum : Nat) (d6dLastProbePacketNum : Option Nat)
    (udpSendPacketLen cipherOverhead : Nat) (connBuffer : List Nat)
    (sched : SchedulerOutcome) (writeCall : WriteCallOutcome) (b : BatchState) :
    DataPathBuildResult :=
  let prevSize := connBuffer.length
  let bufAfter := connBuffer ++ sched.appendedBytes
  let rolledBack := bufAfter.take prevSize
  let failure : DataPathBuildResult :=
    { buildSuccess := false, writeSuccess := false, encodedSize := 0,
      loggedOversizeError := false, connBuffer := rolledBack,
      batch := (batchFlush threadLocal .flushTypeAllowThreadLocalDelay true b).2,
      flushCalled := true }
  match sched.packet with
  | none => failure
  | some pkt =>
      if pkt.frames.isEmpty then failure
      else if !pkt.hasBody then failure
      else
        let encodedSize := pkt.headerLen + pkt.bodyLen + cipherOverhead
        let logged := !isD6DProbe pnSpace d6dLastProbePacketNum packetNum &&
          decide (udpSendPacketLen < encodedSize)
        let wb := ioBufBatchWrite threadLocal writeCall b
        { buildSuccess := true, writeSuccess := wb.1, encodedSize := encodedSize,
          loggedOversizeError := logged, connBuffer := bufAfter, batch := wb.2,
          flushCalled := false }

/-- iobufChainBasedBuildScheduleEncrypt: the chained strategy allocates a
fresh buffer per packet (no shared connection buffer), reports build
failure with a flush under the same no-packet / no-frames / no-body
conditions, and on success logs whenever the encoded size exceeds
udpSendPacketLen — with no D6D-probe exemption in this strategy. -/
def iobufChainBasedBuildScheduleEncrypt (threadLocal : Bool)
    (udpSendPacketLen cipherOverhead : Nat) (sched : SchedulerOutcome)
    (writeCall : WriteCallOutcome) (b : BatchState) : DataPathBuildResult :=
  let failure : DataPathBuildResult :=
    { buildSuccess := false, writeSuccess := false, encodedSize := 0,
      loggedOversizeError := false, connBuffer := [],
      batch := (batchFlush threadLocal .flushTypeAllowThreadLocalDelay true b).2,
      flushCalled := true }
  match sched.packet with
  | none => failure
  | some pkt =>
      if pkt.frames.isEmpty then failure
      else if !pkt.hasBody then failure
      else
        let encodedSize := pkt.headerLen + pkt.bodyLen + cipherOverhead
        let logged := decide (udpSendPacketLen < encodedSize)
        let wb := ioBufBatchWrite threadLocal writeCall b
        { buildSuccess := true, writeSuccess := wb.1, encodedSize := encodedSize,
          loggedOversizeError := logged, connBuffer := [], batch := wb.2,
          flushCalled := false }

/-- An ack state owing an immediate ack. -/
def ackDueState : AckStateM :=
  { hasAcksToSchedule := true, needsToSendAckImmediately := true }

/-- An ack state with nothing to acknowledge. -/
def ackIdleState : AckStateM :=
  { hasAcksToSchedule := false, needsToSendAckImmediately := false }

/-- Empty crypto-stream classifier buffers. -/
def emptyCryptoBuffers : CryptoStreamBuffers :=
  { writeBuffer := [], lossBuffer := [] }

/-- Pending events with nothing requested. -/
def quietPendingEvents : PendingEventsM :=
  { numProbePackets := 0, resets := [], connWindowUpdate := false, frames := [],
    pathChallenge := none, sendPing := false }

/-- A connection with an overdue Initial ack, pending app stream data, and
a congestion controller reporting zero writable bytes. -/
def ackBlockedConn : QuicConnectionStateBase :=
  { initialWriteCipher := true, handshakeWriteCipher := false,
    oneRttWriteCipher := true, zeroRttWriteCipher := false,
    initialAckState := ackDueState, handshakeAckState := ackIdleState,
    appDataAckState := ackIdleState,
    cryptoState := { initialStream := emptyCryptoBuffers,
                     handshakeStream := emptyCryptoBuffers,
                     oneRttStream := emptyCryptoBuffers },
    pendingEvents := quietPendingEvents,
    streamManager := { hasWindowUpdates := false, hasBlocked := false, hasWritable := true },
    outstandingPathValidation := false, pathValidationCredit := 0,
    writableBytesLimit := none, totalBytesSent := 0,
    congestionControllerWritable := some 0, udpSendPacketLen := 1400,
    sendConnFlowControlBytesWire := 10000 }

/-- A connection whose congestion controller reports a writable budget of
2 ^ 64 - 2 bytes: finite, nonzero, and within udpSendPacketLen of the
uint64 maximum, so the round-up addition wraps. -/
def overflowBudgetConn : QuicConnectionStateBase :=
  { initialWriteCipher := false, handshakeWriteCipher := false,
    oneRttWriteCipher := true, zeroRttWriteCipher := false,
    initialAckState := ackIdleState, handshakeAckState := ackIdleState,
    appDataAckState := ackIdleState,
    cryptoState := { initialStream := emptyCryptoBuffers,
                     handshakeStream := emptyCryptoBuffers,
                     oneRttStream := emptyCryptoBuffers },
    pendingEvents := quietPendingEvents,
    streamManager := { hasWindowUpdates := false, hasBlocked := false, hasWritable := true },
    outstandingPathValidation := false, pathValidationCredit := 0,
    writableBytesLimit := none, totalBytesSent := 0,
    congestionControllerWritable := some (2 ^ 64 - 2), udpSendPacketLen := 1400,
    sendConnFlowControlBytesWire := 10000 }

/-- A packet carrying only an ack frame and padding. -/
def pureAckPadPacket : OutstandingPacketM :=
  { pnSpace := .appData, packetNum := 7, frames := [.writeAckFrame 3, .paddingFrame] }

/-- A packet carrying only a ping frame. -/
def pingOnlyPacket : OutstandingPacketM :=
  { pnSpace := .appData, packetNum := 9, frames := [.pingFrame] }

/-- An outstanding container holding Initial 0, Handshake 0, Initial 1 —
globally ascending, strictly ascending within each space. -/
def orderedOutstandingDemo : List OutstandingPacketM :=
  [ { pnSpace := .initial, packetNum := 0, frames := [.writeCryptoFrame 0 100] },
    { pnSpace := .handshake, packetNum := 0, frames := [.writeCryptoFrame 0 50] },
    { pnSpace := .initial, packetNum := 1, frames := [.writeCryptoFrame 100 20] } ]

/-- A Handshake probe packet whose number 1 is not the global maximum. -/
def probeCloneDemo : OutstandingPacketM :=
  { pnSpace := .handshake, packetNum := 1, frames := [.pingFrame] }

/-- A connection with two outstanding Initial packets whose crypto frames
back the Initial crypto stream's retransmission buffer, and a stale loss
buffer entry. -/
def implicitAckDemoConn : ConnForImplicitAck :=
  { outstandings :=
      [ { pnSpace := .initial, packetNum := 3, frames := [.writeCryptoFrame 0 5] },
        { pnSpace := .initial, packetNum := 5, frames := [.writeCryptoFrame 5 2] } ],
    initialCryptoStream :=
      { writeBuffer := [], retransmissionBuffer := [(0, 5), (5, 2)], lossBuffer := [(9, 1)] },
    handshakeCryptoStream :=
      { writeBuffer := [], retransmissionBuffer := [], lossBuffer := [] } }

/-- ENETUNREACH on Linux. -/
def ENETUNREACH : Nat := 101

/-- A flush state with only the first socket eligible and nothing paused. -/
def firstOnlyFlushState : FlushSideState :=
  { he := { shouldWriteToFirstSocket := true, shouldWriteToSecondSocket := false,
            connAttemptDelayScheduled := false },
    firstSocketReadPaused := false, secondSocketReadPaused := false, errno := 0 }

/-- A flush state with both sockets eligible and nothing paused. -/
def bothSocketsFlushState : FlushSideState :=
  { he := { shouldWriteToFirstSocket := true, shouldWriteToSecondSocket := true,
            connAttemptDelayScheduled := false },
    firstSocketReadPaused := false, secondSocketReadPaused := false, errno := 0 }

/-- A failed socket write with the retriable errno EAGAIN. -/
def eagainWriteOutcome : SocketWriteOutcome := { consumed := -1, errnoValue := EAGAIN }

/-- A failed socket write with the non-retriable errno ENETUNREACH. -/
def enetunreachWriteOutcome : SocketWriteOutcome := { consumed := -1, errnoValue := ENETUNREACH }

/-- The unreachability classifier instantiated to the Linux codes folly
uses: ENETUNREACH. -/
def demoNetUnreachable : Nat → Bool := fun e => e == ENETUNREACH

/-- A write call that leaves the packet batched: no flush demanded, append
accepts without requesting an immediate flush. -/
def plainWriteCall : WriteCallOutcome :=
  { needsFlush := false, needsFlushResult := true,
    appendRequestsFlush := false, appendFlushResult := true }

/-- A write call whose append requests an immediate flush that fails. -/
def failingFlushWriteCall : WriteCallOutcome :=
  { needsFlush := false, needsFlushResult := true,
    appendRequestsFlush := true, appendFlushResult := false }

/-- A loop iteration that builds and writes successfully. -/
def iterBuildAndWrite : IterOutcome :=
  { buildSuccess := true, buildFailFlushResult := true, writeCall := plainWriteCall }

/-- A loop iteration that builds but whose batch write fails. -/
def iterBuildWriteFails : IterOutcome :=
  { buildSuccess := true, buildFailFlushResult := true, writeCall := failingFlushWriteCall }

/-- A scheduled packet that came back with frames but no body region. -/
def noBodyPacket : FramesAndBody :=
  { frames := [.writeStreamFrame 4 0 10 false], hasBody := false, headerLen := 3, bodyLen := 0 }

/-- A scheduling outcome that appended three bytes and produced a packet
with no body region. -/
def noBodySched : SchedulerOutcome :=
  { appendedBytes := [1, 2, 3], packet := some noBodyPacket }

/-- An oversized ping packet: 36 + 1584 + 16 bytes encoded, above a 1400
byte udpSendPacketLen. -/
def oversizedProbePacket : FramesAndBody :=
  { frames := [.pingFrame], hasBody := true, headerLen := 36, bodyLen := 1584 }

/-- A scheduling outcome carrying the oversized D6D probe. -/
def oversizedProbeSched : SchedulerOutcome :=
  { appendedBytes := [], packet := some oversizedProbePacket }

/-! Theorems. -/

/-- Claim C1: shouldWriteData returns the single highest-priority write
reason in the spec's fixed thirteen-clause order (first conjunct: the
source classifier equals the flat spec chain, stats event included), and
in particular an immediately due ack is returned even when
congestionControlWritableBytes is zero, since the ack check precedes the
cwnd check (second conjunct, which holds regardless of the budget). -/
theorem claimC1_shouldWriteData_priority :
    (∀ conn : QuicConnectionStateBase, shouldWriteData conn = shouldWriteDataSpec conn) ∧
    (∀ conn : QuicConnectionStateBase, conn.pendingEvents.numProbePackets = 0 →
      hasAckDataToWrite conn = true →
      shouldWriteData conn = (WriteDataReason.ack, false)) := by
  constructor
  · intro conn
    unfold shouldWriteData shouldWriteDataSpec hasNonAckDataToWrite hasAckDataToWrite
      toWriteInitialAcks toWriteHandshakeAcks toWriteAppDataAcks cryptoHasWritableData
    simp only [apply_ite (fun r : WriteDataReason => (r, false))]
  · intro conn h0 hAck
    have hcond : (conn.pendingEvents.numProbePackets != 0) = false := by
      rw [h0]
      rfl
    unfold shouldWriteData
    rw [hcond]
    simp [hAck]

/-- The theorem instantiated at a connection with an overdue Initial ack,
pending stream data, no probes, and a zero congestion budget: the
classifier answers ack, not the cwnd-blocked no-write. -/
theorem claimC1_witness :
    ackBlockedConn.pendingEvents.numProbePackets = 0 ∧
    hasAckDataToWrite ackBlockedConn = true ∧
    congestionControlWritableBytes ackBlockedConn = 0 ∧
    shouldWriteData ackBlockedConn = (WriteDataReason.ack, false) :=
  ⟨rfl, by decide, by decide, claimC1_shouldWriteData_priority.2 ackBlockedConn rfl (by decide)⟩

/-- Claim C10 counterexample: with no path challenge and no writable-bytes
limit, a congestion controller reporting the finite nonzero budget
2 ^ 64 - 2 makes the uint64 round-up wrap, and
congestionControlWritableBytes returns 0 even though the underlying budget
is nonzero and no writable-bytes limit is exhausted. -/
theorem claimC10_counterexample :
    congestionControlWritableBytes overflowBudgetConn = 0 ∧
    ccwbBudget overflowBudgetConn = some (2 ^ 64 - 2) ∧
    (2 ^ 64 - 2 ≠ 0) ∧
    overflowBudgetConn.writableBytesLimit = none ∧
    overflowBudgetConn.pendingEvents.pathChallenge = none ∧
    overflowBudgetConn.outstandingPathValidation = false := by
  refine ⟨by decide, by decide, by decide, rfl, rfl, rfl⟩

/-- Claim C10 (amended): congestionControlWritableBytes returns 2 ^ 64 - 1
or a multiple of udpSendPacketLen (zero included); the early return fires
when the writable-bytes limit is exhausted; and whenever the pre-rounding
budget w is finite and the round-up addition w + udpSendPacketLen does not
overflow uint64, the result is the least multiple of udpSendPacketLen at
or above w — in particular zero exactly when w is zero.  (The amendment:
for w within udpSendPacketLen - 1 of the uint64 maximum the addition
wraps and the result can be zero or a small multiple, as the
counterexample shows.) -/
theorem claimC10_ccwb_amended :
    ∀ conn : QuicConnectionStateBase, 0 < conn.udpSendPacketLen →
      (congestionControlWritableBytes conn = U64MAX ∨
        congestionControlWritableBytes conn % conn.udpSendPacketLen = 0) ∧
      (ccwbBudget conn = none → congestionControlWritableBytes conn = 0) ∧
      (∀ w, ccwbBudget conn = some w → w ≠ U64MAX →
        w + conn.udpSendPacketLen ≤ 2 ^ 64 →
        w ≤ congestionControlWritableBytes conn ∧
        congestionControlWritableBytes conn < w + conn.udpSendPacketLen ∧
        (congestionControlWritableBytes conn = 0 ↔ w = 0)) := by
  intro conn hL
  refine ⟨?_, ?_, ?_⟩
  · unfold congestionControlWritableBytes
    cases hb : ccwbBudget conn with
    | none => right; simp [ccwbFromBudget]
    | some w =>
        by_cases hw : w = U64MAX
        · left
          simp only [ccwbFromBudget]
          rw [if_pos hw]
          exact hw
        · right
          simp only [ccwbFromBudget]
          rw [if_neg hw]
          unfold roundUpToPacketLen
          exact Nat.mul_mod_left _ _
  · intro h
    unfold congestionControlWritableBytes
    rw [h]
    rfl
  · intro w hw hne hov
    unfold congestionControlWritableBytes
    rw [hw]
    simp only [ccwbFromBudget]
    rw [if_neg hne]
    unfold roundUpToPacketLen
    have hlt : w + conn.udpSendPacketLen - 1 < 2 ^ 64 := by omega
    rw [Nat.mod_eq_of_lt hlt]
    rcases Nat.eq_zero_or_pos w with hw0 | hw0
    · subst hw0
      have hdiv : (0 + conn.udpSendPacketLen - 1) / conn.udpSendPacketLen = 0 :=
        Nat.div_eq_of_lt (by omega)
      rw [hdiv]
      simp only [Nat.zero_mul]
      simpa using hL
    · have hmod := Nat.mod_add_div (w + conn.udpSendPacketLen - 1) conn.udpSendPacketLen
      have hmlt : (w + conn.udpSendPacketLen - 1) % conn.udpSendPacketLen <
          conn.udpSendPacketLen := Nat.mod_lt _ hL
      have hcomm : (w + conn.udpSendPacketLen - 1) / conn.udpSendPacketLen *
          conn.udpSendPacketLen =
          conn.udpSendPacketLen * ((w + conn.udpSendPacketLen - 1) / conn.udpSendPacketLen) :=
        Nat.mul_comm _ _
      rw [hcomm]
      omega

/-- The amended theorem at a concrete connection: budget 2 ^ 64 - 2 is
replaced by the small budget 1 at packet length 1400, whose round-up does
not overflow, giving the positive multiple 1400. -/
theorem claimC10_witness :
    0 < ackBlockedConn.udpSendPacketLen ∧
    ccwbBudget ackBlockedConn = some 0 ∧
    (congestionControlWritableBytes ackBlockedConn = U64MAX ∨
      congestionControlWritableBytes ackBlockedConn % ackBlockedConn.udpSendPacketLen = 0) ∧
    (congestionControlWritableBytes ackBlockedConn = 0 ↔ (0 : Nat) = 0) :=
  ⟨by decide, by decide,
    (claimC10_ccwb_amended ackBlockedConn (by decide)).1,
    ((claimC10_ccwb_amended ackBlockedConn (by decide)).2.2 0 (by decide) (by decide)
      (by decide)).2.2⟩

/-- Every element of the insertion result is the new packet or an element
of the original container. -/
theorem mem_insertOutstanding {p x : OutstandingPacketM} :
    ∀ {l : List OutstandingPacketM}, x ∈ insertOutstanding p l → x = p ∨ x ∈ l := by
  intro l
  induction l with
  | nil =>
      intro h
      simp only [insertOutstanding, List.mem_singleton] at h
      exact Or.inl h
  | cons q rest ih =>
      intro h
      simp only [insertOutstanding] at h
      split at h
      · simp only [List.mem_cons] at h ⊢
        rcases h with h | h
        · exact Or.inr (Or.inl h)
        · rcases ih h with h | h
          · exact Or.inl h
          · exact Or.inr (Or.inr h)
      · split at h <;> (simp only [List.mem_cons] at h ⊢; tauto)

/-- Insertion grows the container by exactly one record. -/
theorem length_insertOutstanding (p : OutstandingPacketM) :
    ∀ l : List OutstandingPacketM, (insertOutstanding p l).length = l.length + 1 := by
  intro l
  induction l with
  | nil => rfl
  | cons q rest ih =>
      simp only [insertOutstanding]
      split
      · simp [ih]
      · split <;> simp

/-- The retransmittable / isPing accumulation over a frame list is set
exactly when some frame is neither an ack nor padding. -/
theorem foldl_updateFrameFlags_or (frames : List QuicWriteFrame) :
    ∀ a : Bool × Bool,
      ((frames.foldl updateFrameFlags a).1 || (frames.foldl updateFrameFlags a).2) =
        (a.1 || a.2 || frames.any (fun f => !frameIsAckOrPadding f)) := by
  induction frames with
  | nil => intro a; simp
  | cons f fs ih =>
      intro a
      rw [List.foldl_cons, List.any_cons, ih (updateFrameFlags a f)]
      cases f <;> simp [updateFrameFlags, frameIsAckOrPadding]

/-- Claim C3: updateConnection inserts an outstanding record exactly when
the packet carries a frame other than acks and padding (ping included):
a packet whose frames are all ack or padding frames leaves the container
unchanged, and a packet with any other frame — ping, reset, window
update, blocked, stream, crypto, simple — is inserted, growing the
container by exactly one record. -/
theorem claimC3_outstanding_iff_ack_eliciting :
    ∀ (l : List OutstandingPacketM) (packet : OutstandingPacketM),
      ((∀ f ∈ packet.frames, frameIsAckOrPadding f = true) →
        updateConnectionOutstandings l packet = l) ∧
      ((∃ f ∈ packet.frames, frameIsAckOrPadding f = false) →
        updateConnectionOutstandings l packet = insertOutstanding packet l ∧
        (updateConnectionOutstandings l packet).length = l.length + 1) := by
  intro l packet
  have hkey := foldl_updateFrameFlags_or packet.frames (false, false)
  constructor
  · intro hall
    have hany : packet.frames.any (fun f => !frameIsAckOrPadding f) = false := by
      rw [List.any_eq_false]
      intro f hf
      simp [hall f hf]
    have hrp : ((packetRetransmittableAndPing packet.frames).1 ||
        (packetRetransmittableAndPing packet.frames).2) = false := by
      unfold packetRetransmittableAndPing
      rw [hkey, hany]
      rfl
    simp only [updateConnectionOutstandings, ← Bool.not_or, hrp]
    rfl
  · intro hex
    obtain ⟨f, hf, hfval⟩ := hex
    have hany : packet.frames.any (fun f => !frameIsAckOrPadding f) = true :=
      List.any_eq_true.mpr ⟨f, hf, by simp [hfval]⟩
    have hrp : ((packetRetransmittableAndPing packet.frames).1 ||
        (packetRetransmittableAndPing packet.frames).2) = true := by
      unfold packetRetransmittableAndPing
      rw [hkey, hany]
      simp
    constructor
    · simp only [updateConnectionOutstandings, ← Bool.not_or, hrp]
      rfl
    · simp only [updateConnectionOutstandings, ← Bool.not_or, hrp]
      simp [length_insertOutstanding]

/-- Claim C3 theorem applied concretely: a packet holding only an ack
frame and padding is not tracked; a ping-only packet is. -/
theorem claimC3_witness :
    updateConnectionOutstandings [] pureAckPadPacket = [] ∧
    (updateConnectionOutstandings [] pingOnlyPacket).length =
      ([] : List OutstandingPacketM).length + 1 :=
  ⟨(claimC3_outstanding_iff_ack_eliciting [] pureAckPadPacket).1 (by decide),
   ((claimC3_outstanding_iff_ack_eliciting [] pingOnlyPacket).2 (by decide)).2⟩

/-- Claim C4: the outstanding container's order is preserved by
updateConnection's insertion: if the container is globally ascending by
packet number and strictly ascending within each packet-number space, and
the inserted packet's number is fresh in its space, then after insertion
— even of a probe/clone packet whose number is not the global maximum —
both orders still hold. -/
theorem claimC4_insert_preserves_order :
    ∀ (l : List OutstandingPacketM) (p : OutstandingPacketM),
      outstandingsSortedByPacketNum l → outstandingsStrictPerSpace l →
      (∀ q ∈ l, q.pnSpace = p.pnSpace → q.packetNum ≠ p.packetNum) →
      outstandingsSortedByPacketNum (insertOutstanding p l) ∧
      outstandingsStrictPerSpace (insertOutstanding p l) := by
  intro l p
  unfold outstandingsSortedByPacketNum outstandingsStrictPerSpace
  induction l with
  | nil =>
      intro _ _ _
      constructor <;> simp [insertOutstanding]
  | cons q rest ih =>
      intro hs hst hf
      rw [List.pairwise_cons] at hs hst
      simp only [insertOutstanding]
      split
      case isTrue hany =>
        obtain ⟨r, hr, hrlt⟩ := List.any_eq_true.mp hany
        have hrlt' : r.packetNum < p.packetNum := of_decide_eq_true hrlt
        have hqp : q.packetNum < p.packetNum := lt_of_le_of_lt (hs.1 r hr) hrlt'
        obtain ⟨ihs, ihst⟩ := ih hs.2 hst.2 (fun x hx hsp => hf x (List.mem_cons_of_mem _ hx) hsp)
        constructor
        · rw [List.pairwise_cons]
          refine ⟨?_, ihs⟩
          intro x hx
          rcases mem_insertOutstanding hx with rfl | hx
          · exact le_of_lt hqp
          · exact hs.1 x hx
        · rw [List.pairwise_cons]
          refine ⟨?_, ihst⟩
          intro x hx
          rcases mem_insertOutstanding hx with rfl | hx
          · exact fun _ => hqp
          · exact hst.1 x hx
      case isFalse hnany =>
        have hnone : ∀ r ∈ rest, p.packetNum ≤ r.packetNum := by
          intro r hr
          by_contra hcon
          exact hnany (List.any_eq_true.mpr ⟨r, hr, decide_eq_true (by omega)⟩)
        split
        case isTrue hqlt =>
          constructor
          · rw [List.pairwise_cons]
            constructor
            · intro x hx
              rcases List.mem_cons.mp hx with rfl | hx
              · exact le_of_lt hqlt
              · exact hs.1 x hx
            · rw [List.pairwise_cons]
              exact ⟨fun x hx => hnone x hx, hs.2⟩
          · rw [List.pairwise_cons]
            constructor
            · intro x hx
              rcases List.mem_cons.mp hx with rfl | hx
              · exact fun _ => hqlt
              · exact hst.1 x hx
            · rw [List.pairwise_cons]
              constructor
              · intro x hx hsp
                have hne := hf x (List.mem_cons_of_mem _ hx) hsp.symm
                exact lt_of_le_of_ne (hnone x hx) (fun he => hne he.symm)
              · exact hst.2
        case isFalse hqge =>
          have hpq : p.packetNum ≤ q.packetNum := Nat.le_of_not_lt hqge
          constructor
          · rw [List.pairwise_cons]
            constructor
            · intro x hx
              rcases List.mem_cons.mp hx with rfl | hx
              · exact hpq
              · exact hnone x hx
            · rw [List.pairwise_cons]
              exact ⟨hs.1, hs.2⟩
          · rw [List.pairwise_cons]
            constructor
            · intro x hx hsp
              rcases List.mem_cons.mp hx with rfl | hx
              · have hne := hf _ (List.mem_cons_self _ _) hsp.symm
                exact lt_of_le_of_ne hpq (fun he => hne he.symm)
              · have hne := hf x (List.mem_cons_of_mem _ hx) hsp.symm
                exact lt_of_le_of_ne (hnone x hx) (fun he => hne he.symm)
            · rw [List.pairwise_cons]
              exact ⟨hst.1, hst.2⟩

/-- Claim C4 theorem applied concretely: inserting Handshake packet 1 into
the container Initial 0, Handshake 0, Initial 1 — where 1 is not the
global maximum position — keeps both orders. -/
theorem claimC4_witness :
    outstandingsSortedByPacketNum (insertOutstanding probeCloneDemo orderedOutstandingDemo) ∧
    outstandingsStrictPerSpace (insertOutstanding probeCloneDemo orderedOutstandingDemo) :=
  claimC4_insert_preserves_order orderedOutstandingDemo probeCloneDemo
    (by decide) (by decide) (by decide)

/-- The min fold lower-bounds its start value and every listed value. -/
theorem listMinFrom_le : ∀ (l : List Nat) (n : Nat),
    listMinFrom n l ≤ n ∧ ∀ x ∈ l, listMinFrom n l ≤ x := by
  intro l
  induction l with
  | nil => exact fun n => ⟨Nat.le_refl n, by simp⟩
  | cons m rest ih =>
      intro n
      constructor
      · exact le_trans (ih (Nat.min n m)).1 (Nat.min_le_left n m)
      · intro x hx
        rcases List.mem_cons.mp hx with rfl | hx
        · exact le_trans (ih (Nat.min n x)).1 (Nat.min_le_right n x)
        · exact (ih (Nat.min n m)).2 x hx

/-- The max fold upper-bounds its start value and every listed value. -/
theorem le_listMaxFrom : ∀ (l : List Nat) (n : Nat),
    n ≤ listMaxFrom n l ∧ ∀ x ∈ l, x ≤ listMaxFrom n l := by
  intro l
  induction l with
  | nil => exact fun n => ⟨Nat.le_refl n, by simp⟩
  | cons m rest ih =>
      intro n
      constructor
      · exact le_trans (Nat.le_max_left n m) (ih (Nat.max n m)).1
      · intro x hx
        rcases List.mem_cons.mp hx with rfl | hx
        · exact le_trans (Nat.le_max_right n x) (ih (Nat.max n x)).1
        · exact (ih (Nat.max n m)).2 x hx

/-- Reading back the stream setCryptoStream wrote. -/
theorem getCryptoStream_setCryptoStream (conn : ConnForImplicitAck) (level : EncryptionLevel)
    (s : CryptoStreamState) : getCryptoStream (setCryptoStream conn level s) level = s := by
  cases level <;> rfl

/-- setCryptoStream leaves the outstanding container untouched. -/
theorem setCryptoStream_outstandings (conn : ConnForImplicitAck) (level : EncryptionLevel)
    (s : CryptoStreamState) : (setCryptoStream conn level s).outstandings = conn.outstandings := by
  cases level <;> rfl

/-- One visitor step: the write and loss buffers are untouched and the
retransmission buffer keeps exactly the chunks the frame does not cover. -/
theorem ackVisitorFrame_spec (s : CryptoStreamState) (f : QuicWriteFrame) :
    (ackVisitorFrame s f).writeBuffer = s.writeBuffer ∧
    (ackVisitorFrame s f).lossBuffer = s.lossBuffer ∧
    (ackVisitorFrame s f).retransmissionBuffer =
      s.retransmissionBuffer.filter
        (fun e => !decide (QuicWriteFrame.writeCryptoFrame e.1 e.2 = f)) := by
  cases f <;> simp [ackVisitorFrame, processCryptoStreamAck]

/-- The visitor folded over a frame list: write and loss buffers are
untouched and the retransmission buffer keeps exactly the chunks no frame
of the list covers. -/
theorem foldl_ackVisitorFrame_spec :
    ∀ (frames : List QuicWriteFrame) (s : CryptoStreamState),
      (frames.foldl ackVisitorFrame s).writeBuffer = s.writeBuffer ∧
      (frames.foldl ackVisitorFrame s).lossBuffer = s.lossBuffer ∧
      (frames.foldl ackVisitorFrame s).retransmissionBuffer =
        s.retransmissionBuffer.filter (fun e =>
          !frames.any (fun f => decide (QuicWriteFrame.writeCryptoFrame e.1 e.2 = f))) := by
  intro frames
  induction frames with
  | nil => intro s; refine ⟨rfl, rfl, ?_⟩; simp
  | cons f fs ih =>
      intro s
      rw [List.foldl_cons]
      obtain ⟨hw1, hl1, hr1⟩ := ackVisitorFrame_spec s f
      obtain ⟨hw2, hl2, hr2⟩ := ih (ackVisitorFrame s f)
      refine ⟨hw2.trans hw1, hl2.trans hl1, ?_⟩
      rw [hr2, hr1, List.filter_filter]
      apply List.filter_congr
      intro e _
      simp [Bool.not_or, Bool.and_comm]

/-- The visitor folded over the acknowledged packets. -/
theorem foldl_ackVisitorPacket_spec :
    ∀ (ops : List OutstandingPacketM) (s : CryptoStreamState),
      (ops.foldl ackVisitorPacket s).writeBuffer = s.writeBuffer ∧
      (ops.foldl ackVisitorPacket s).lossBuffer = s.lossBuffer ∧
      (ops.foldl ackVisitorPacket s).retransmissionBuffer =
        s.retransmissionBuffer.filter (fun e =>
          !ops.any (fun op => op.frames.any
            (fun f => decide (QuicWriteFrame.writeCryptoFrame e.1 e.2 = f)))) := by
  intro ops
  induction ops with
  | nil => intro s; refine ⟨rfl, rfl, ?_⟩; simp
  | cons op ops ih =>
      intro s
      rw [List.foldl_cons]
      obtain ⟨hw1, hl1, hr1⟩ := foldl_ackVisitorFrame_spec op.frames s
      obtain ⟨hw2, hl2, hr2⟩ := ih (ackVisitorPacket s op)
      refine ⟨hw2.trans hw1, hl2.trans hl1, ?_⟩
      have hr1' : (ackVisitorPacket s op).retransmissionBuffer =
          s.retransmissionBuffer.filter (fun e =>
            !op.frames.any (fun f => decide (QuicWriteFrame.writeCryptoFrame e.1 e.2 = f))) := hr1
      rw [hr2, hr1', List.filter_filter]
      apply List.filter_congr
      intro e _
      simp [Bool.not_or, Bool.and_comm]

/-- Claim C5: discarding a handshake encryption level with N packets still
outstanding in its packet-number space synthesizes a single ack block
covering every such packet number, runs it through the ack-processing
path so that exactly the N packets are acknowledged and none is reported
lost, and leaves the level's crypto stream with empty loss, empty
retransmission, and empty write buffers.  Hypotheses: at least one packet
is outstanding in the space (otherwise the source returns before clearing
anything), every retransmission-buffer chunk is carried by a crypto frame
of some outstanding packet of the space, and — as the source asserts via
CHECK — the write buffer is already empty. -/
theorem claimC5_implicitAck_acks_all :
    ∀ (conn : ConnForImplicitAck) (level : EncryptionLevel) (N : Nat),
      N = (conn.outstandings.filter
        (fun op => decide (op.pnSpace = implicitAckPnSpace level))).length →
      0 < N →
      (∀ e ∈ (getCryptoStream conn level).retransmissionBuffer,
        ∃ op ∈ conn.outstandings, op.pnSpace = implicitAckPnSpace level ∧
          QuicWriteFrame.writeCryptoFrame e.1 e.2 ∈ op.frames) →
      (getCryptoStream conn level).writeBuffer = [] →
      (implicitAckCryptoStream conn level).ackedCount = N ∧
      (implicitAckCryptoStream conn level).lostCount = 0 ∧
      (∃ bs be, (implicitAckCryptoStream conn level).synthesizedBlock = some (bs, be) ∧
        ∀ op ∈ conn.outstandings, op.pnSpace = implicitAckPnSpace level →
          bs ≤ op.packetNum ∧ op.packetNum ≤ be) ∧
      (∀ op ∈ (implicitAckCryptoStream conn level).conn.outstandings,
        op.pnSpace ≠ implicitAckPnSpace level) ∧
      (getCryptoStream (implicitAckCryptoStream conn level).conn level).lossBuffer = [] ∧
      (getCryptoStream (implicitAckCryptoStream conn level).conn level).retransmissionBuffer = [] ∧
      (getCryptoStream (implicitAckCryptoStream conn level).conn level).writeBuffer = [] := by
  intro conn level N hN hNpos hretr hwb
  cases hnums : (conn.outstandings.filter
      (fun op => decide (op.pnSpace = implicitAckPnSpace level))).map
      (fun op => op.packetNum) with
  | nil =>
      exfalso
      have hlen := congrArg List.length hnums
      simp only [List.length_map, List.length_nil] at hlen
      omega
  | cons n rest =>
      have hbound : ∀ op ∈ conn.outstandings, op.pnSpace = implicitAckPnSpace level →
          listMinFrom n rest ≤ op.packetNum ∧ op.packetNum ≤ listMaxFrom n rest := by
        intro op hop hsp
        have hmem : op.packetNum ∈ n :: rest := by
          rw [← hnums]
          exact List.mem_map_of_mem _ (List.mem_filter.mpr ⟨hop, decide_eq_true hsp⟩)
        constructor
        · rcases List.mem_cons.mp hmem with heq | hmem'
          · rw [heq]
            exact (listMinFrom_le rest n).1
          · exact (listMinFrom_le rest n).2 _ hmem'
        · rcases List.mem_cons.mp hmem with heq | hmem'
          · rw [heq]
            exact (le_listMaxFrom rest n).1
          · exact (le_listMaxFrom rest n).2 _ hmem'
      have hcov : ∀ op ∈ conn.outstandings,
          coveredByImplicitAck (implicitAckPnSpace level) (listMinFrom n rest)
            (listMaxFrom n rest) op = decide (op.pnSpace = implicitAckPnSpace level) := by
        intro op hop
        by_cases hsp : op.pnSpace = implicitAckPnSpace level
        · obtain ⟨h1, h2⟩ := hbound op hop hsp
          simp [coveredByImplicitAck, hsp, h1, h2]
        · simp [coveredByImplicitAck, hsp]
      have hrun : implicitAckCryptoStream conn level =
          { conn := setCryptoStream
              (processAckFrameImplicit conn (implicitAckPnSpace level) level
                (listMinFrom n rest) (listMaxFrom n rest)).conn level
              { getCryptoStream (processAckFrameImplicit conn (implicitAckPnSpace level) level
                  (listMinFrom n rest) (listMaxFrom n rest)).conn level with lossBuffer := [] },
            synthesizedBlock := some (listMinFrom n rest, listMaxFrom n rest),
            ackedCount := (processAckFrameImplicit conn (implicitAckPnSpace level) level
              (listMinFrom n rest) (listMaxFrom n rest)).ackedCount,
            lostCount := (processAckFrameImplicit conn (implicitAckPnSpace level) level
              (listMinFrom n rest) (listMaxFrom n rest)).lostCount } := by
        simp only [implicitAckCryptoStream]
        rw [hnums]
      have hackedList : conn.outstandings.filter
          (coveredByImplicitAck (implicitAckPnSpace level) (listMinFrom n rest)
            (listMaxFrom n rest)) =
          conn.outstandings.filter (fun op => decide (op.pnSpace = implicitAckPnSpace level)) :=
        List.filter_congr hcov
      have hconn : (processAckFrameImplicit conn (implicitAckPnSpace level) level
          (listMinFrom n rest) (listMaxFrom n rest)).conn =
          setCryptoStream
            { conn with
              outstandings := (conn.outstandings.filter
                (fun op => !coveredByImplicitAck (implicitAckPnSpace level)
                  (listMinFrom n rest) (listMaxFrom n rest) op)) } level
            ((conn.outstandings.filter
              (coveredByImplicitAck (implicitAckPnSpace level) (listMinFrom n rest)
                (listMaxFrom n rest))).foldl ackVisitorPacket (getCryptoStream conn level)) := rfl
      have hremNotSpace : ∀ op ∈ conn.outstandings.filter
          (fun op => !coveredByImplicitAck (implicitAckPnSpace level)
            (listMinFrom n rest) (listMaxFrom n rest) op),
          ¬op.pnSpace = implicitAckPnSpace level := by
        intro op hop
        have hmem := List.mem_of_mem_filter hop
        have hflag := List.of_mem_filter hop
        rw [hcov op hmem] at hflag
        intro hsp
        rw [decide_eq_true hsp] at hflag
        exact absurd hflag (by simp)
      have hfinalConn : (implicitAckCryptoStream conn level).conn =
          setCryptoStream (processAckFrameImplicit conn (implicitAckPnSpace level) level
            (listMinFrom n rest) (listMaxFrom n rest)).conn level
            { getCryptoStream (processAckFrameImplicit conn (implicitAckPnSpace level) level
                (listMinFrom n rest) (listMaxFrom n rest)).conn level with lossBuffer := [] } := by
        rw [hrun]
      have hgetProc : getCryptoStream (processAckFrameImplicit conn (implicitAckPnSpace level)
          level (listMinFrom n rest) (listMaxFrom n rest)).conn level =
          (conn.outstandings.filter
            (coveredByImplicitAck (implicitAckPnSpace level) (listMinFrom n rest)
              (listMaxFrom n rest))).foldl ackVisitorPacket (getCryptoStream conn level) := by
        rw [hconn, getCryptoStream_setCryptoStream]
      obtain ⟨hfw, hfl, hfr⟩ := foldl_ackVisitorPacket_spec
        (conn.outstandings.filter
          (coveredByImplicitAck (implicitAckPnSpace level) (listMinFrom n rest)
            (listMaxFrom n rest))) (getCryptoStream conn level)
      have hretrEmpty : ((conn.outstandings.filter
          (coveredByImplicitAck (implicitAckPnSpace level) (listMinFrom n rest)
            (listMaxFrom n rest))).foldl ackVisitorPacket
          (getCryptoStream conn level)).retransmissionBuffer = [] := by
        rw [hfr, List.filter_eq_nil_iff]
        intro e he
        obtain ⟨op, hop, hsp, hfmem⟩ := hretr e he
        have hany : ((conn.outstandings.filter
            (coveredByImplicitAck (implicitAckPnSpace level) (listMinFrom n rest)
              (listMaxFrom n rest))).any (fun op => op.frames.any
              (fun f => decide (QuicWriteFrame.writeCryptoFrame e.1 e.2 = f)))) = true := by
          refine List.any_eq_true.mpr ⟨op, ?_, ?_⟩
          · refine List.mem_filter.mpr ⟨hop, ?_⟩
            rw [hcov op hop]
            exact decide_eq_true hsp
          · exact List.any_eq_true.mpr ⟨_, hfmem, decide_eq_true rfl⟩
        simp [hany]
      refine ⟨?_, ?_, ?_, ?_, ?_, ?_, ?_⟩
      · have h1 : (implicitAckCryptoStream conn level).ackedCount =
            (processAckFrameImplicit conn (implicitAckPnSpace level) level
              (listMinFrom n rest) (listMaxFrom n rest)).ackedCount := by rw [hrun]
        rw [h1]
        show (conn.outstandings.filter
          (coveredByImplicitAck (implicitAckPnSpace level) (listMinFrom n rest)
            (listMaxFrom n rest))).length = N
        rw [hackedList]
        exact hN.symm
      · have h1 : (implicitAckCryptoStream conn level).lostCount =
            (processAckFrameImplicit conn (implicitAckPnSpace level) level
              (listMinFrom n rest) (listMaxFrom n rest)).lostCount := by rw [hrun]
        rw [h1]
        show ((conn.outstandings.filter
            (fun op => !coveredByImplicitAck (implicitAckPnSpace level)
              (listMinFrom n rest) (listMaxFrom n rest) op)).filter
            (fun op => decide (op.pnSpace = implicitAckPnSpace level) &&
              decide (op.packetNum ≤ listMaxFrom n rest))).length = 0
        rw [List.length_eq_zero, List.filter_eq_nil_iff]
        intro op hop
        have hns := hremNotSpace op hop
        simp [hns]
      · refine ⟨listMinFrom n rest, listMaxFrom n rest, ?_, hbound⟩
        rw [hrun]
      · intro op hop
        rw [hfinalConn, setCryptoStream_outstandings, hconn,
          setCryptoStream_outstandings] at hop
        exact hremNotSpace op hop
      · rw [hfinalConn, getCryptoStream_setCryptoStream]
      · rw [hfinalConn, getCryptoStream_setCryptoStream]
        show (getCryptoStream (processAckFrameImplicit conn (implicitAckPnSpace level) level
          (listMinFrom n rest) (listMaxFrom n rest)).conn level).retransmissionBuffer = []
        rw [hgetProc]
        exact hretrEmpty
      · rw [hfinalConn, getCryptoStream_setCryptoStream]
        show (getCryptoStream (processAckFrameImplicit conn (implicitAckPnSpace level) level
          (listMinFrom n rest) (listMaxFrom n rest)).conn level).writeBuffer = []
        rw [hgetProc, hfw]
        exact hwb

/-- Claim C5 theorem applied concretely: two Initial packets outstanding
(numbers 3 and 5) backing the retransmission buffer; discarding the
Initial level acknowledges both, reports nothing lost, and empties the
loss, retransmission, and write buffers. -/
theorem claimC5_witness :
    (implicitAckCryptoStream implicitAckDemoConn EncryptionLevel.initial).ackedCount = 2 ∧
    (implicitAckCryptoStream implicitAckDemoConn EncryptionLevel.initial).lostCount = 0 ∧
    (∃ bs be, (implicitAckCryptoStream implicitAckDemoConn
        EncryptionLevel.initial).synthesizedBlock = some (bs, be) ∧
      ∀ op ∈ implicitAckDemoConn.outstandings,
        op.pnSpace = implicitAckPnSpace EncryptionLevel.initial →
        bs ≤ op.packetNum ∧ op.packetNum ≤ be) ∧
    (∀ op ∈ (implicitAckCryptoStream implicitAckDemoConn
        EncryptionLevel.initial).conn.outstandings,
      op.pnSpace ≠ implicitAckPnSpace EncryptionLevel.initial) ∧
    (getCryptoStream (implicitAckCryptoStream implicitAckDemoConn
      EncryptionLevel.initial).conn EncryptionLevel.initial).lossBuffer = [] ∧
    (getCryptoStream (implicitAckCryptoStream implicitAckDemoConn
      EncryptionLevel.initial).conn EncryptionLevel.initial).retransmissionBuffer = [] ∧
    (getCryptoStream (implicitAckCryptoStream implicitAckDemoConn
      EncryptionLevel.initial).conn EncryptionLevel.initial).writeBuffer = [] :=
  claimC5_implicitAck_acks_all implicitAckDemoConn EncryptionLevel.initial 2
    (by decide) (by decide) (by decide) rfl

/-- The state component of flushFinish is its input state. -/
theorem flushFinish_snd (netUnreachable : Nat → Bool) (written : Bool) (s : FlushSideState) :
    (flushFinish netUnreachable written s).2 = s := by
  unfold flushFinish
  split
  · split <;> rfl
  · rfl

/-- flushFinish with both sockets ineligible throws exactly the signal the
errno classification selects. -/
theorem flushFinish_both_false (netUnreachable : Nat → Bool) (written : Bool)
    (s : FlushSideState) (h1 : s.he.shouldWriteToFirstSocket = false)
    (h2 : s.he.shouldWriteToSecondSocket = false) :
    (flushFinish netUnreachable written s).1 =
      (if netUnreachable s.errno then FlushSignal.quicInternalExceptionConnectionAbandoned
       else FlushSignal.quicTransportExceptionInternalError) := by
  unfold flushFinish
  rw [h1, h2]
  simp only [Bool.not_false, Bool.and_self, if_true]
  split <;> rfl

/-- Claim C6: when a flush of a nonempty batch ends with both sockets
ineligible, flushInternal raises exactly one fatal signal, selected by the
errno the writes left behind: the connection-abandonment exception
(CONNECTION_ABANDONED) when the classifier reports network
unreachability, and otherwise the transport exception INTERNAL_ERROR. -/
theorem claimC6_flushInternal_both_fatal :
    ∀ (netUnreachable : Nat → Bool) (firstWrite secondWrite : SocketWriteOutcome)
      (s0 : FlushSideState),
      ((flushInternal netUnreachable false firstWrite secondWrite
        s0).2).he.shouldWriteToFirstSocket = false →
      ((flushInternal netUnreachable false firstWrite secondWrite
        s0).2).he.shouldWriteToSecondSocket = false →
      (flushInternal netUnreachable false firstWrite secondWrite s0).1 =
        (if netUnreachable ((flushInternal netUnreachable false firstWrite secondWrite
            s0).2).errno then
          FlushSignal.quicInternalExceptionConnectionAbandoned
         else FlushSignal.quicTransportExceptionInternalError) := by
  intro nu fw sw s0 h1 h2
  have e : flushInternal nu false fw sw s0 =
      flushFinish nu
        (s0.he.shouldWriteToFirstSocket && decide (0 ≤ fw.consumed) ||
          ((flushStartSecondIfDelayPending
            (s0.he.shouldWriteToFirstSocket && decide (0 ≤ fw.consumed))
            (flushFirstSocket fw s0)).he.shouldWriteToSecondSocket &&
            decide (0 ≤ sw.consumed)))
        (flushSecondSocket sw (flushStartSecondIfDelayPending
          (s0.he.shouldWriteToFirstSocket && decide (0 ≤ fw.consumed))
          (flushFirstSocket fw s0))) := rfl
  rw [e, flushFinish_snd] at h1 h2 ⊢
  exact flushFinish_both_false _ _ _ h1 h2

/-- Claim C6 theorem applied concretely: both sockets eligible, both
writes failing with ENETUNREACH; the flush throws the
connection-abandonment signal. -/
theorem claimC6_witness :
    ((flushInternal demoNetUnreachable false enetunreachWriteOutcome enetunreachWriteOutcome
      bothSocketsFlushState).2).he.shouldWriteToFirstSocket = false ∧
    ((flushInternal demoNetUnreachable false enetunreachWriteOutcome enetunreachWriteOutcome
      bothSocketsFlushState).2).he.shouldWriteToSecondSocket = false ∧
    (flushInternal demoNetUnreachable false enetunreachWriteOutcome enetunreachWriteOutcome
      bothSocketsFlushState).1 =
      (if demoNetUnreachable ((flushInternal demoNetUnreachable false enetunreachWriteOutcome
          enetunreachWriteOutcome bothSocketsFlushState).2).errno then
        FlushSignal.quicInternalExceptionConnectionAbandoned
       else FlushSignal.quicTransportExceptionInternalError) :=
  ⟨by decide, by decide,
   claimC6_flushInternal_both_fatal demoNetUnreachable enetunreachWriteOutcome
     enetunreachWriteOutcome bothSocketsFlushState (by decide) (by decide)⟩

/-- Claim C7 counterexample: a retriable first-socket failure (EAGAIN) on
a nonempty batch raises nothing and the flush reports false — but, against
the claim's wording, the affected socket is NOT marked ineligible and its
read side is NOT paused: eligibility stays true and no pause happens
(the source pauses and marks ineligible only on non-retriable errors). -/
theorem claimC7_counterexample :
    (flushInternal demoNetUnreachable false eagainWriteOutcome eagainWriteOutcome
      firstOnlyFlushState).1 = FlushSignal.ok false ∧
    ¬(((flushInternal demoNetUnreachable false eagainWriteOutcome eagainWriteOutcome
        firstOnlyFlushState).2).he.shouldWriteToFirstSocket = false ∧
      ((flushInternal demoNetUnreachable false eagainWriteOutcome eagainWriteOutcome
        firstOnlyFlushState).2).firstSocketReadPaused = true) ∧
    ((flushInternal demoNetUnreachable false eagainWriteOutcome eagainWriteOutcome
      firstOnlyFlushState).2).he.shouldWriteToFirstSocket = true ∧
    ((flushInternal demoNetUnreachable false eagainWriteOutcome eagainWriteOutcome
      firstOnlyFlushState).2).firstSocketReadPaused = false := by
  decide

/-- Claim C7 (amended): a socket write failure classified retriable raises
no fatal signal and does not close the connection; the flush reports
failure (written = false, treated as an implicit loss for this attempt);
and the affected socket REMAINS eligible with its read side not paused —
only non-retriable failures mark a socket ineligible and pause reads. -/
theorem claimC7_retriable_amended :
    ∀ (netUnreachable : Nat → Bool) (firstWrite secondWrite : SocketWriteOutcome)
      (s0 : FlushSideState),
      s0.he.shouldWriteToFirstSocket = true →
      firstWrite.consumed < 0 → isRetriableError firstWrite.errnoValue = true →
      secondWrite.consumed < 0 → isRetriableError secondWrite.errnoValue = true →
      (flushInternal netUnreachable false firstWrite secondWrite s0).1 =
        FlushSignal.ok false ∧
      ((flushInternal netUnreachable false firstWrite secondWrite
        s0).2).he.shouldWriteToFirstSocket = true ∧
      ((flushInternal netUnreachable false firstWrite secondWrite
        s0).2).firstSocketReadPaused = s0.firstSocketReadPaused ∧
      ((flushInternal netUnreachable false firstWrite secondWrite
        s0).2).secondSocketReadPaused = s0.secondSocketReadPaused := by
  intro nu fw sw s0 hfirst hfw hret1 hsw hret2
  have hd1 : decide (0 ≤ fw.consumed) = false := decide_eq_false (by omega)
  have hd2 : decide (0 ≤ sw.consumed) = false := decide_eq_false (by omega)
  cases hdelay : s0.he.connAttemptDelayScheduled <;>
    cases hss : s0.he.shouldWriteToSecondSocket <;>
      simp [flushInternal, flushFirstSocket, flushStartSecondIfDelayPending,
        flushSecondSocket, flushFinish, hfirst, hfw, hsw, hd1, hd2, hret1, hret2,
        hdelay, hss]

/-- Claim C7 amended theorem applied concretely: an EAGAIN failure on the
only eligible socket leaves it eligible, pauses nothing, and the flush
returns false without a fatal signal. -/
theorem claimC7_witness :
    (flushInternal demoNetUnreachable false eagainWriteOutcome eagainWriteOutcome
      firstOnlyFlushState).1 = FlushSignal.ok false ∧
    ((flushInternal demoNetUnreachable false eagainWriteOutcome eagainWriteOutcome
      firstOnlyFlushState).2).he.shouldWriteToFirstSocket = true ∧
    ((flushInternal demoNetUnreachable false eagainWriteOutcome eagainWriteOutcome
      firstOnlyFlushState).2).firstSocketReadPaused =
        firstOnlyFlushState.firstSocketReadPaused ∧
    ((flushInternal demoNetUnreachable false eagainWriteOutcome eagainWriteOutcome
      firstOnlyFlushState).2).secondSocketReadPaused =
        firstOnlyFlushState.secondSocketReadPaused :=
  claimC7_retriable_amended demoNetUnreachable eagainWriteOutcome eagainWriteOutcome
    firstOnlyFlushState rfl (by decide) (by decide) (by decide) (by decide)

/-- A successor packet count never compares equal to zero. -/
theorem nat_succ_beq_zero (n : Nat) : ((n + 1) == 0) = false := rfl

/-- flush never changes the pktSent counter. -/
theorem batchFlush_pktSent (tl : Bool) (ft : FlushTypeM) (ok : Bool) (b : BatchState) :
    ((batchFlush tl ft ok b).2).pktSent = b.pktSent := by
  unfold batchFlush
  split <;> rfl

/-- An unconditional flush always leaves the batch empty. -/
theorem batchFlush_always_pending (tl ok : Bool) (b : BatchState) :
    ((batchFlush tl .flushTypeAlways ok b).2).pendingPackets = 0 := by
  unfold batchFlush
  rw [show (FlushTypeM.flushTypeAlways == FlushTypeM.flushTypeAllowThreadLocalDelay) = false
    from rfl, Bool.and_false]
  simp

/-- Without thread-local batching, every flush mode empties the batch. -/
theorem batchFlush_notThreadLocal_pending (ft : FlushTypeM) (ok : Bool) (b : BatchState) :
    ((batchFlush false ft ok b).2).pendingPackets = 0 := by
  unfold batchFlush
  simp

/-- The Boolean an unconditional flush reports: trivially true on an empty
batch, otherwise the flushInternal oracle. -/
theorem batchFlush_always_fst (tl ok : Bool) (b : BatchState) :
    (batchFlush tl .flushTypeAlways ok b).1 =
      (if b.pendingPackets == 0 then true else ok) := by
  unfold batchFlush
  rw [show (FlushTypeM.flushTypeAlways == FlushTypeM.flushTypeAllowThreadLocalDelay) = false
    from rfl, Bool.and_false]
  simp

/-- IOBufQuicBatch::write counts its packet in pktSent exactly once. -/
theorem ioBufBatchWrite_pktSent (tl : Bool) (o : WriteCallOutcome) (b : BatchState) :
    ((ioBufBatchWrite tl o b).2).pktSent = b.pktSent + 1 := by
  cases happend : o.appendRequestsFlush <;> cases hneeds : o.needsFlush <;>
    simp [ioBufBatchWrite, happend, hneeds, batchFlush_pktSent]

/-- What IOBufQuicBatch::write returns: failure is possible only through
the immediate flush append requests, whose oracle then decides. -/
theorem ioBufBatchWrite_fst (tl : Bool) (o : WriteCallOutcome) (b : BatchState) :
    (ioBufBatchWrite tl o b).1 =
      (if o.appendRequestsFlush then o.appendFlushResult else true) := by
  cases happend : o.appendRequestsFlush <;> cases hneeds : o.needsFlush <;>
    simp [ioBufBatchWrite, happend, hneeds, batchFlush_always_fst, nat_succ_beq_zero]

/-- A failed write call has flushed and reset the batch: no packet is left
pending. -/
theorem ioBufBatchWrite_false_pending (tl : Bool) (o : WriteCallOutcome) (b : BatchState) :
    (ioBufBatchWrite tl o b).1 = false →
    ((ioBufBatchWrite tl o b).2).pendingPackets = 0 := by
  cases happend : o.appendRequestsFlush <;> cases hneeds : o.needsFlush <;>
    simp [ioBufBatchWrite, happend, hneeds, batchFlush_always_pending]

/-- The loop invariant of writeConnectionDataToSocket, generalized over
the starting update count and iteration index. -/
theorem writeLoop_spec (threadLocal : Bool) (timeOk : Nat → Bool)
    (packetLimit batchSize : Nat) :
    ∀ (outcomes : List IterOutcome) (b : BatchState) (updates k : Nat)
      (r : WriteLoopResult),
      r = writeConnectionDataLoop threadLocal timeOk packetLimit batchSize outcomes b
        updates k →
      r.updateConnectionCalls =
        updates + (r.executed.filter (fun o => o.buildSuccess)).length ∧
      r.ret = b.pktSent + (r.executed.filter (fun o => o.buildSuccess)).length ∧
      (∀ o ∈ r.executed.dropLast, o.buildSuccess = true ∧ iterWriteSuccess o = true) ∧
      (threadLocal = false → (r.batch).pendingPackets = 0) := by
  intro outcomes
  induction outcomes with
  | nil =>
      intro b updates k r hr
      subst hr
      simp only [writeConnectionDataLoop]
      refine ⟨by simp, by simp [batchFlush_pktSent], by simp, ?_⟩
      intro htl
      subst htl
      exact batchFlush_notThreadLocal_pending _ _ _
  | cons o rest ih =>
      intro b updates k r hr
      subst hr
      simp only [writeConnectionDataLoop]
      cases hguard : (decide (b.pktSent < packetLimit) &&
          (decide (b.pktSent < batchSize) || timeOk k)) with
      | false =>
          simp only [hguard, Bool.false_eq_true, if_false]
          refine ⟨by simp, by simp [batchFlush_pktSent], by simp, ?_⟩
          intro htl
          subst htl
          exact batchFlush_notThreadLocal_pending _ _ _
      | true =>
          simp only [hguard, if_true]
          cases hbs : o.buildSuccess with
          | false =>
              simp only [dataPathStep, hbs, Bool.false_eq_true, if_false]
              refine ⟨by simp [hbs], by simp [hbs, batchFlush_pktSent], by simp, ?_⟩
              intro htl
              subst htl
              exact batchFlush_notThreadLocal_pending _ _ _
          | true =>
              simp only [dataPathStep, hbs, if_true]
              cases hws : (ioBufBatchWrite threadLocal o.writeCall b).1 with
              | false =>
                  simp only [hws, Bool.false_eq_true, if_false]
                  refine ⟨by simp [hbs], ?_, by simp, ?_⟩
                  · simp only [List.filter_cons, hbs, if_true, List.filter_nil,
                      List.length_cons, List.length_nil]
                    rw [ioBufBatchWrite_pktSent]
                  · intro _
                    exact ioBufBatchWrite_false_pending threadLocal o.writeCall b hws
              | true =>
                  simp only [hws, if_true]
                  obtain ⟨ih1, ih2, ih3, ih4⟩ := ih ((ioBufBatchWrite threadLocal
                    o.writeCall b).2) (updates + 1) (k + 1) _ rfl
                  refine ⟨?_, ?_, ?_, ih4⟩
                  · simp only [ih1, List.filter_cons, hbs, if_true, List.length_cons]
                    omega
                  · simp only [ih2, List.filter_cons, hbs, if_true, List.length_cons,
                      ioBufBatchWrite_pktSent]
                    omega
                  · intro x hx
                    cases hre : (writeConnectionDataLoop threadLocal timeOk packetLimit
                        batchSize rest ((ioBufBatchWrite threadLocal o.writeCall b).2)
                        (updates + 1) (k + 1)).executed with
                    | nil =>
                        rw [hre] at hx
                        simp at hx
                    | cons y ys =>
                        rw [hre] at hx
                        rw [List.dropLast_cons₂] at hx
                        rcases List.mem_cons.mp hx with rfl | hx
                        · refine ⟨hbs, ?_⟩
                          have := ioBufBatchWrite_fst threadLocal x.writeCall b
                          rw [hws] at this
                          exact this.symm
                        · rw [← hre] at hx
                          exact ih3 x hx

/-- Claim C2: in the writeConnectionDataToSocket loop, (i) updateConnection
runs exactly once per iteration whose build step succeeded — even when
that iteration's batch write failed; (ii) the loop's return value counts
exactly the packets handed to the batch writer, so a failed batch write
ends the loop returning the packets sent so far, and every executed
iteration except possibly the last built and wrote successfully; and
(iii) after the loop ends, for any reason, no packet is left pending in
the batch when thread-local batching is off (every exit path has flushed;
with thread-local batching the final flush defers by design). -/
theorem claimC2_write_loop_contract :
    ∀ (threadLocal : Bool) (timeOk : Nat → Bool) (packetLimit batchSize : Nat)
      (outcomes : List IterOutcome) (b0 : BatchState) (r : WriteLoopResult),
      r = writeConnectionDataLoop threadLocal timeOk packetLimit batchSize outcomes b0 0 0 →
      r.updateConnectionCalls = (r.executed.filter (fun o => o.buildSuccess)).length ∧
      r.ret = b0.pktSent + (r.executed.filter (fun o => o.buildSuccess)).length ∧
      (∀ o ∈ r.executed.dropLast, o.buildSuccess = true ∧ iterWriteSuccess o = true) ∧
      (threadLocal = false → (r.batch).pendingPackets = 0) := by
  intro threadLocal timeOk packetLimit batchSize outcomes b0 r hr
  obtain ⟨h1, h2, h3, h4⟩ := writeLoop_spec threadLocal timeOk packetLimit batchSize
    outcomes b0 0 0 r hr
  exact ⟨by rw [h1, Nat.zero_add], h2, h3, h4⟩

/-- Claim C2 theorem applied concretely: two successfully built packets,
the second one's batch write failing; both are folded into connection
state, the loop returns 2, and the batch ends empty. -/
theorem claimC2_witness :
    (writeConnectionDataLoop false (fun _ => true) 10 5
      [iterBuildAndWrite, iterBuildWriteFails] { pendingPackets := 0, pktSent := 0 }
      0 0).updateConnectionCalls =
      ((writeConnectionDataLoop false (fun _ => true) 10 5
        [iterBuildAndWrite, iterBuildWriteFails] { pendingPackets := 0, pktSent := 0 }
        0 0).executed.filter (fun o => o.buildSuccess)).length ∧
    (writeConnectionDataLoop false (fun _ => true) 10 5
      [iterBuildAndWrite, iterBuildWriteFails] { pendingPackets := 0, pktSent := 0 }
      0 0).ret =
      ({ pendingPackets := 0, pktSent := 0 } : BatchState).pktSent +
        ((writeConnectionDataLoop false (fun _ => true) 10 5
          [iterBuildAndWrite, iterBuildWriteFails] { pendingPackets := 0, pktSent := 0 }
          0 0).executed.filter (fun o => o.buildSuccess)).length ∧
    (∀ o ∈ (writeConnectionDataLoop false (fun _ => true) 10 5
        [iterBuildAndWrite, iterBuildWriteFails] { pendingPackets := 0, pktSent := 0 }
        0 0).executed.dropLast,
      o.buildSuccess = true ∧ iterWriteSuccess o = true) ∧
    (false = false →
      ((writeConnectionDataLoop false (fun _ => true) 10 5
        [iterBuildAndWrite, iterBuildWriteFails] { pendingPackets := 0, pktSent := 0 }
        0 0).batch).pendingPackets = 0) :=
  claimC2_write_loop_contract false (fun _ => true) 10 5
    [iterBuildAndWrite, iterBuildWriteFails] { pendingPackets := 0, pktSent := 0 } _ rfl

/-- Claim C8: whenever the in-place strategy's scheduling step yields no
packet, a packet with zero frames, or a packet with no body region, the
connection-owned buffer is rewound to exactly its pre-attempt contents
(nothing is left at the tail), the previously batched packets are flushed
(flush invoked; the batch is empty afterwards when thread-local batching
is off, and no batched packet is dropped — pktSent is unchanged), and a
build failure is reported. -/
theorem claimC8_inplace_build_failure_rewind :
    ∀ (threadLocal : Bool) (pnSpace : PacketNumberSpace) (packetNum : Nat)
      (d6dLastProbePacketNum : Option Nat) (udpSendPacketLen cipherOverhead : Nat)
      (connBuffer : List Nat) (sched : SchedulerOutcome) (writeCall : WriteCallOutcome)
      (b : BatchState),
      (sched.packet = none ∨
        ∃ pkt, sched.packet = some pkt ∧ (pkt.frames = [] ∨ pkt.hasBody = false)) →
      (continuousMemoryBuildScheduleEncrypt threadLocal pnSpace packetNum
        d6dLastProbePacketNum udpSendPacketLen cipherOverhead connBuffer sched writeCall
        b).buildSuccess = false ∧
      (continuousMemoryBuildScheduleEncrypt threadLocal pnSpace packetNum
        d6dLastProbePacketNum udpSendPacketLen cipherOverhead connBuffer sched writeCall
        b).connBuffer = connBuffer ∧
      (continuousMemoryBuildScheduleEncrypt threadLocal pnSpace packetNum
        d6dLastProbePacketNum udpSendPacketLen cipherOverhead connBuffer sched writeCall
        b).flushCalled = true ∧
      ((continuousMemoryBuildScheduleEncrypt threadLocal pnSpace packetNum
        d6dLastProbePacketNum udpSendPacketLen cipherOverhead connBuffer sched writeCall
        b).batch).pktSent = b.pktSent ∧
      (threadLocal = false →
        ((continuousMemoryBuildScheduleEncrypt threadLocal pnSpace packetNum
          d6dLastProbePacketNum udpSendPacketLen cipherOverhead connBuffer sched writeCall
          b).batch).pendingPackets = 0) := by
  intro tl pnSpace packetNum d6d udpLen overhead buf sched writeCall b hfail
  have htake : (buf ++ sched.appendedBytes).take buf.length = buf := List.take_left _ _
  rcases hfail with hp | ⟨pkt, hp, hpkt⟩
  · refine ⟨?_, ?_, ?_, ?_, ?_⟩
    · simp [continuousMemoryBuildScheduleEncrypt, hp]
    · simp [continuousMemoryBuildScheduleEncrypt, hp, htake]
    · simp [continuousMemoryBuildScheduleEncrypt, hp]
    · simp [continuousMemoryBuildScheduleEncrypt, hp, batchFlush_pktSent]
    · intro htl
      subst htl
      simp [continuousMemoryBuildScheduleEncrypt, hp, batchFlush_notThreadLocal_pending]
  · by_cases hfr : pkt.frames.isEmpty
    · refine ⟨?_, ?_, ?_, ?_, ?_⟩
      · simp [continuousMemoryBuildScheduleEncrypt, hp, hfr]
      · simp [continuousMemoryBuildScheduleEncrypt, hp, hfr, htake]
      · simp [continuousMemoryBuildScheduleEncrypt, hp, hfr]
      · simp [continuousMemoryBuildScheduleEncrypt, hp, hfr, batchFlush_pktSent]
      · intro htl
        subst htl
        simp [continuousMemoryBuildScheduleEncrypt, hp, hfr,
          batchFlush_notThreadLocal_pending]
    · have hbody : pkt.hasBody = false := by
        rcases hpkt with h | h
        · exact absurd (by simp [h] : pkt.frames.isEmpty = true) hfr
        · exact h
      refine ⟨?_, ?_, ?_, ?_, ?_⟩
      · simp [continuousMemoryBuildScheduleEncrypt, hp, hfr, hbody]
      · simp [continuousMemoryBuildScheduleEncrypt, hp, hfr, hbody, htake]
      · simp [continuousMemoryBuildScheduleEncrypt, hp, hfr, hbody]
      · simp [continuousMemoryBuildScheduleEncrypt, hp, hfr, hbody, batchFlush_pktSent]
      · intro htl
        subst htl
        simp [continuousMemoryBuildScheduleEncrypt, hp, hfr, hbody,
          batchFlush_notThreadLocal_pending]

/-- Claim C8 theorem applied concretely: a schedule attempt that appended
three bytes but produced a packet without a body region reports build
failure, restores the two-byte buffer exactly, flushes, and drops no
batched packet. -/
theorem claimC8_witness :
    (continuousMemoryBuildScheduleEncrypt false PacketNumberSpace.appData 3 none 1400 16
      [9, 9] noBodySched plainWriteCall { pendingPackets := 0, pktSent := 0 }).buildSuccess =
      false ∧
    (continuousMemoryBuildScheduleEncrypt false PacketNumberSpace.appData 3 none 1400 16
      [9, 9] noBodySched plainWriteCall { pendingPackets := 0, pktSent := 0 }).connBuffer =
      [9, 9] ∧
    (continuousMemoryBuildScheduleEncrypt false PacketNumberSpace.appData 3 none 1400 16
      [9, 9] noBodySched plainWriteCall { pendingPackets := 0, pktSent := 0 }).flushCalled =
      true ∧
    ((continuousMemoryBuildScheduleEncrypt false PacketNumberSpace.appData 3 none 1400 16
      [9, 9] noBodySched plainWriteCall { pendingPackets := 0, pktSent := 0 }).batch).pktSent =
      ({ pendingPackets := 0, pktSent := 0 } : BatchState).pktSent ∧
    (false = false →
      ((continuousMemoryBuildScheduleEncrypt false PacketNumberSpace.appData 3 none 1400 16
        [9, 9] noBodySched plainWriteCall
        { pendingPackets := 0, pktSent := 0 }).batch).pendingPackets = 0) :=
  claimC8_inplace_build_failure_rewind false PacketNumberSpace.appData 3 none 1400 16
    [9, 9] noBodySched plainWriteCall { pendingPackets := 0, pktSent := 0 }
    (Or.inr ⟨noBodyPacket, rfl, Or.inr rfl⟩)

/-- Claim C9 counterexample: an oversized deliberate D6D probe (encoded
size 1636 above the 1400-byte limit) is exempt from the oversize error log
in the continuous-memory strategy but IS logged by the chained strategy —
the claimed exemption does not exist in the chained strategy. -/
theorem claimC9_counterexample :
    isD6DProbe PacketNumberSpace.appData (some 7) 7 = true ∧
    (continuousMemoryBuildScheduleEncrypt false PacketNumberSpace.appData 7 (some 7) 1400
      16 [] oversizedProbeSched plainWriteCall
      { pendingPackets := 0, pktSent := 0 }).encodedSize = 1636 ∧
    1400 < 1636 ∧
    (continuousMemoryBuildScheduleEncrypt false PacketNumberSpace.appData 7 (some 7) 1400
      16 [] oversizedProbeSched plainWriteCall
      { pendingPackets := 0, pktSent := 0 }).loggedOversizeError = false ∧
    (iobufChainBasedBuildScheduleEncrypt false 1400 16 oversizedProbeSched plainWriteCall
      { pendingPackets := 0, pktSent := 0 }).encodedSize = 1636 ∧
    (iobufChainBasedBuildScheduleEncrypt false 1400 16 oversizedProbeSched plainWriteCall
      { pendingPackets := 0, pktSent := 0 }).loggedOversizeError = true := by
  decide

/-- Claim C9 (amended): on every successfully built packet, each strategy
logs — and neither crashes nor drops the packet, the build still succeeds
— exactly when the encoded size (header + body + cipher overhead) exceeds
udpSendPacketLen, except that the continuous-memory strategy alone exempts
the deliberate oversized D6D probe; the chained strategy has no D6D
exemption and logs even for such probes. -/
theorem claimC9_oversize_log_amended :
    ∀ (threadLocal : Bool) (pnSpace : PacketNumberSpace) (packetNum : Nat)
      (d6dLastProbePacketNum : Option Nat) (udpSendPacketLen cipherOverhead : Nat)
      (connBuffer : List Nat) (sched : SchedulerOutcome) (writeCall : WriteCallOutcome)
      (b : BatchState) (pkt : FramesAndBody),
      sched.packet = some pkt → pkt.frames ≠ [] → pkt.hasBody = true →
      (continuousMemoryBuildScheduleEncrypt threadLocal pnSpace packetNum
        d6dLastProbePacketNum udpSendPacketLen cipherOverhead connBuffer sched writeCall
        b).buildSuccess = true ∧
      (continuousMemoryBuildScheduleEncrypt threadLocal pnSpace packetNum
        d6dLastProbePacketNum udpSendPacketLen cipherOverhead connBuffer sched writeCall
        b).loggedOversizeError =
        (!isD6DProbe pnSpace d6dLastProbePacketNum packetNum &&
          decide (udpSendPacketLen < pkt.headerLen + pkt.bodyLen + cipherOverhead)) ∧
      (iobufChainBasedBuildScheduleEncrypt threadLocal udpSendPacketLen cipherOverhead
        sched writeCall b).buildSuccess = true ∧
      (iobufChainBasedBuildScheduleEncrypt threadLocal udpSendPacketLen cipherOverhead
        sched writeCall b).loggedOversizeError =
        decide (udpSendPacketLen < pkt.headerLen + pkt.bodyLen + cipherOverhead) := by
  intro tl pnSpace packetNum d6d udpLen overhead buf sched writeCall b pkt hp hfrne hbody
  have hfr : pkt.frames.isEmpty = false := by
    cases hq : pkt.frames with
    | nil => exact absurd hq hfrne
    | cons x xs => rfl
  refine ⟨?_, ?_, ?_, ?_⟩
  · simp [continuousMemoryBuildScheduleEncrypt, hp, hfr, hbody]
  · simp [continuousMemoryBuildScheduleEncrypt, hp, hfr, hbody]
  · simp [iobufChainBasedBuildScheduleEncrypt, hp, hfr, hbody]
  · simp [iobufChainBasedBuildScheduleEncrypt, hp, hfr, hbody]

/-- Claim C9 amended theorem applied concretely, on the oversized D6D
probe: both builds succeed, the continuous-memory strategy's log stays
silent (probe exemption), and the chained strategy logs. -/
theorem claimC9_witness :
    (continuousMemoryBuildScheduleEncrypt false PacketNumberSpace.appData 7 (some 7) 1400
      16 [] oversizedProbeSched plainWriteCall
      { pendingPackets := 0, pktSent := 0 }).buildSuccess = true ∧
    (continuousMemoryBuildScheduleEncrypt false PacketNumberSpace.appData 7 (some 7) 1400
      16 [] oversizedProbeSched plainWriteCall
      { pendingPackets := 0, pktSent := 0 }).loggedOversizeError =
      (!isD6DProbe PacketNumberSpace.appData (some 7) 7 &&
        decide (1400 < oversizedProbePacket.headerLen + oversizedProbePacket.bodyLen + 16)) ∧
    (iobufChainBasedBuildScheduleEncrypt false 1400 16 oversizedProbeSched plainWriteCall
      { pendingPackets := 0, pktSent := 0 }).buildSuccess = true ∧
    (iobufChainBasedBuildScheduleEncrypt false 1400 16 oversizedProbeSched plainWriteCall
      { pendingPackets := 0, pktSent := 0 }).loggedOversizeError =
      decide (1400 < oversizedProbePacket.headerLen + oversizedProbePacket.bodyLen + 16) :=
  claimC9_oversize_log_amended false PacketNumberSpace.appData 7 (some 7) 1400 16 []
    oversizedProbeSched plainWriteCall { pendingPackets := 0, pktSent := 0 }
    oversizedProbePacket rfl (by decide) rfl

end Mvfst
